import Mathlib

/-!
Stopwatch (ATmega16/32, `Interfacing1.c`): time keeping and control state machine

A shallow embedding of `Interfacing/Interfacing1.c`.

* The globals `s`, `m`, `h`, `mode` are `unsigned char`; the I/O registers the
  program writes are 8 bits wide (`OCR1A` is 16 bits wide).  They are fields of
  `State`, as natural numbers; an increment that can leave the 8-bit range is
  written with an explicit `% 256`.  The bitwise operations `&`, `|`, `^` on
  8-bit operands stay within 8 bits and need no reduction.
* `~x` on a register mask is `not8 x`, the complement within 8 bits, which is
  what is left of the C `int` complement once it is and-ed into an 8-bit
  register.
* `PINB` is an input register: every read of it in the source consumes the next
  element of a list of samples.  A polling routine returns `none` when the
  samples end before the routine does (in particular while it still spins in a
  wait-for-release loop).
* `_delay_ms` changes nothing in `State`.
* Interrupt handlers and the polled routines are atomic transitions of `State`.
-/

namespace Stopwatch

/-! ## Bit numbers of the device header `<avr/io.h>` (ATmega16/32) -/

/-- Bit number of `PB0` in `<avr/io.h>`. -/
def PB0 : Nat := 0
/-- Bit number of `PB1` in `<avr/io.h>`. -/
def PB1 : Nat := 1
/-- Bit number of `PB3` in `<avr/io.h>`. -/
def PB3 : Nat := 3
/-- Bit number of `PB4` in `<avr/io.h>`. -/
def PB4 : Nat := 4
/-- Bit number of `PB5` in `<avr/io.h>`. -/
def PB5 : Nat := 5
/-- Bit number of `PB6` in `<avr/io.h>`. -/
def PB6 : Nat := 6
/-- Bit number of `PB7` in `<avr/io.h>`. -/
def PB7 : Nat := 7
/-- Bit number of `PD0` (buzzer line) in `<avr/io.h>`. -/
def PD0 : Nat := 0
/-- Bit number of `PD2` in `<avr/io.h>`. -/
def PD2 : Nat := 2
/-- Bit number of `PD4` (count-up indicator) in `<avr/io.h>`. -/
def PD4 : Nat := 4
/-- Bit number of `PD5` (count-down indicator) in `<avr/io.h>`. -/
def PD5 : Nat := 5
/-- Bit number of `CS10` in `TCCR1B`. -/
def CS10 : Nat := 0
/-- Bit number of `CS12` in `TCCR1B`. -/
def CS12 : Nat := 2
/-- Bit number of `WGM12` in `TCCR1B`. -/
def WGM12 : Nat := 3
/-- Bit number of `FOC1A` in `TCCR1A`. -/
def FOC1A : Nat := 3
/-- Bit number of `OCIE1A` in `TIMSK`. -/
def OCIE1A : Nat := 4
/-- Bit number of `ISC01` in `MCUCR`. -/
def ISC01 : Nat := 1
/-- Bit number of `ISC10` in `MCUCR`. -/
def ISC10 : Nat := 2
/-- Bit number of `ISC11` in `MCUCR`. -/
def ISC11 : Nat := 3
/-- Bit number of `ISC2` in `MCUCSR`. -/
def ISC2 : Nat := 6
/-- Bit number of `INT0` in `GICR`. -/
def INT0 : Nat := 6
/-- Bit number of `INT1` in `GICR`. -/
def INT1 : Nat := 7
/-- Bit number of `INT2` in `GICR`. -/
def INT2 : Nat := 5

/-! ## State -/

/-- The globals of `Interfacing1.c` and the I/O registers it writes. -/
structure State where
  s : Nat
  m : Nat
  h : Nat
  mode : Nat
  TCCR1A : Nat
  TCCR1B : Nat
  TIMSK : Nat
  OCR1A : Nat
  MCUCR : Nat
  MCUCSR : Nat
  GICR : Nat
  DDRA : Nat
  PORTA : Nat
  DDRB : Nat
  PORTB : Nat
  DDRC : Nat
  PORTC : Nat
  DDRD : Nat
  PORTD : Nat
  deriving DecidableEq, Repr

/-- The 8-bit complement: the value `~x` contributes to an 8-bit register. -/
def not8 (x : Nat) : Nat := 255 ^^^ (x % 256)

/-- The C truth value of `x & (1 << bit)`. -/
def bitIsSet (x bit : Nat) : Bool := x &&& (1 <<< bit) != 0

/-- The displayed time, in the order hours, minutes, seconds. -/
def time (st : State) : Nat × Nat × Nat := (st.h, st.m, st.s)

/-- The buzzer line `PD0` is driven high. -/
def alarm (st : State) : Bool := bitIsSet st.PORTD PD0

/-- Seconds at most 59, minutes at most 59, hours at most 23. -/
def InBounds (st : State) : Prop := st.s ≤ 59 ∧ st.m ≤ 59 ∧ st.h ≤ 23

instance (st : State) : Decidable (InBounds st) := by
  unfold InBounds; infer_instance

/-- The time as a number of seconds since 00:00:00. -/
def totalSeconds (st : State) : Nat := 3600 * st.h + 60 * st.m + st.s

/-! ## Interrupt handlers and the tick functions -/

/-- Function `count_up` (lines 95-107). -/
def count_up (st : State) : State :=
  let st := { st with PORTD := st.PORTD &&& not8 (1 <<< PD0) }
  let st := { st with s := (st.s + 1) % 256 }
  let st := if st.s ≥ 60 then { st with s := 0, m := (st.m + 1) % 256 } else st
  let st := if st.m ≥ 60 then { st with m := 0, h := (st.h + 1) % 256 } else st
  let st := if st.h ≥ 24 then { st with h := 0 } else st
  st

/-- Function `count_down` (lines 110-131). -/
def count_down (st : State) : State :=
  if st.s = 0 ∧ st.m = 0 ∧ st.h = 0 then
    let st := { st with TCCR1B := st.TCCR1B &&& not8 ((1 <<< CS12) ||| (1 <<< CS10)) }
    { st with PORTD := st.PORTD ||| (1 <<< PD0) }
  else
    let st := { st with PORTD := st.PORTD &&& not8 (1 <<< PD0) }
    if st.s = 0 then
      let st := { st with s := 59 }
      if st.m = 0 then
        let st := { st with m := 59 }
        if st.h > 0 then { st with h := st.h - 1 } else st
      else
        { st with m := st.m - 1 }
    else
      { st with s := st.s - 1 }

/-- Handler `ISR(TIMER1_COMPA_vect)` (lines 69-76): the one-second tick. -/
def ISR_TIMER1_COMPA (st : State) : State :=
  if st.mode = 1 then count_up st else count_down st

/-- Handler `ISR(INT0_vect)` (lines 79-81): reset. -/
def ISR_INT0 (st : State) : State :=
  { st with h := 0, m := 0, s := 0 }

/-- Handler `ISR(INT1_vect)` (lines 84-87): pause. -/
def ISR_INT1 (st : State) : State :=
  let st := { st with PORTD := st.PORTD &&& not8 (1 <<< PD0) }
  { st with TCCR1B := st.TCCR1B &&& (not8 (1 <<< CS12) &&& not8 (1 <<< CS10)) }

/-- Handler `ISR(INT2_vect)` (lines 90-92): resume. -/
def ISR_INT2 (st : State) : State :=
  { st with TCCR1B := st.TCCR1B ||| ((1 <<< CS12) ||| (1 <<< CS10)) }

/-! ## Initialisation (lines 27-33, 43-66, 134-147) -/

/-- Function `Timer1_Init` (lines 43-48). -/
def Timer1_Init (st : State) : State :=
  let st := { st with TCCR1A := st.TCCR1A ||| (1 <<< FOC1A) }
  let st := { st with
    TCCR1B := st.TCCR1B ||| ((1 <<< WGM12) ||| (1 <<< CS12) ||| (1 <<< CS10)) }
  let st := { st with TIMSK := st.TIMSK ||| (1 <<< OCIE1A) }
  { st with OCR1A := 15624 }

/-- Function `INT0_Init` (lines 51-54). -/
def INT0_Init (st : State) : State :=
  let st := { st with MCUCR := st.MCUCR ||| (1 <<< ISC01) }
  { st with GICR := st.GICR ||| (1 <<< INT0) }

/-- Function `INT1_Init` (lines 57-60). -/
def INT1_Init (st : State) : State :=
  let st := { st with MCUCR := st.MCUCR ||| ((1 <<< ISC10) ||| (1 <<< ISC11)) }
  { st with GICR := st.GICR ||| (1 <<< INT1) }

/-- Function `INT2_Init` (lines 63-66). -/
def INT2_Init (st : State) : State :=
  let st := { st with MCUCSR := st.MCUCSR &&& not8 (1 <<< ISC2) }
  { st with GICR := st.GICR ||| (1 <<< INT2) }

/-- Function `PIN_DIRECTIONS` (lines 134-147). -/
def PIN_DIRECTIONS (st : State) : State :=
  let st := { st with DDRA := st.DDRA ||| 0x3F }
  let st := { st with PORTA := st.PORTA &&& not8 0x3F }
  let st := { st with DDRB := 0 }
  let st := { st with PORTB := 0xFF }
  let st := { st with DDRC := 0x0F }
  let st := { st with PORTC := st.PORTC &&& 0xF0 }
  let st := { st with DDRD := (st.DDRD &&& not8 0x3C) ||| 0x31 }
  let st := { st with PORTD := st.PORTD ||| ((1 <<< PD2) ||| (1 <<< PD4)) }
  { st with PORTD := st.PORTD &&& not8 (1 <<< PD5) }

/-- The globals as initialised at lines 6-7, with every register at its
power-on value zero. -/
def powerOn : State :=
  { s := 0, m := 0, h := 0, mode := 1,
    TCCR1A := 0, TCCR1B := 0, TIMSK := 0, OCR1A := 0, MCUCR := 0, MCUCSR := 0, GICR := 0,
    DDRA := 0, PORTA := 0, DDRB := 0, PORTB := 0, DDRC := 0, PORTC := 0, DDRD := 0,
    PORTD := 0 }

/-- The state in which `main` enters its loop (lines 28-33). -/
def initState : State :=
  PIN_DIRECTIONS (INT2_Init (INT1_Init (INT0_Init (Timer1_Init powerOn))))

/-! ## Polled buttons (lines 171-235) -/

/-- The C truth value of `!(PINB & (1 << bit))` on one sample of `PINB`: the
button on that line is pressed (the inputs are active low). -/
def pressed (bit pinb : Nat) : Bool := !bitIsSet pinb bit

/-- The loop `while(!(PINB & (1 << bit)));`: reads `PINB` until the line is high again;
the sample that ends the loop is consumed. -/
def waitRelease (bit : Nat) : List Nat → Option (List Nat)
  | [] => none
  | p :: rest => if pressed bit p then waitRelease bit rest else some rest

/-- The pattern every polled button follows in the source:
`if(!(PINB & b)) { _delay_ms(1); if(!(PINB & b)) { act; while(!(PINB & b)); _delay_ms(1); } }`. -/
def debounced (bit : Nat) (act : State → State) (st : State) :
    List Nat → Option (State × List Nat)
  | [] => none
  | p0 :: rest =>
    if pressed bit p0 then
      match rest with
      | [] => none
      | p1 :: rest1 =>
        if pressed bit p1 then
          match waitRelease bit rest1 with
          | none => none
          | some rest2 => some (act st, rest2)
        else some (st, rest1)
    else some (st, rest)

/-- The body of the confirmed branch of `MODE` (lines 175-176). -/
def toggleMode (st : State) : State :=
  let st := { st with PORTD := st.PORTD ^^^ ((1 <<< PD5) ^^^ (1 <<< PD4)) }
  { st with mode := st.mode ^^^ 1 }

/-- Function `MODE` (lines 171-181). -/
def MODE (st : State) (pins : List Nat) : Option (State × List Nat) :=
  debounced PB7 toggleMode st pins

/-- Line 189: `h = (h == 0) ? 23 : h - 1;`. -/
def hoursDown (st : State) : State := { st with h := if st.h = 0 then 23 else st.h - 1 }
/-- Line 197: `h = (h + 1) % 24;`. -/
def hoursUp (st : State) : State := { st with h := (st.h + 1) % 24 }
/-- Line 205: `m = (m == 0) ? 59 : m - 1;`. -/
def minutesDown (st : State) : State := { st with m := if st.m = 0 then 59 else st.m - 1 }
/-- Line 213: `m = (m + 1) % 60;`. -/
def minutesUp (st : State) : State := { st with m := (st.m + 1) % 60 }
/-- Line 221: `s = (s == 0) ? 59 : s - 1;`. -/
def secondsDown (st : State) : State := { st with s := if st.s = 0 then 59 else st.s - 1 }
/-- Line 229: `s = (s + 1) % 60;`. -/
def secondsUp (st : State) : State := { st with s := (st.s + 1) % 60 }

/-- Function `ADJUST_TIME` (lines 184-235). -/
def ADJUST_TIME (st : State) (pins : List Nat) : Option (State × List Nat) :=
  if !bitIsSet st.TCCR1B CS12 && !bitIsSet st.TCCR1B CS10 then
    (debounced PB0 hoursDown st pins).bind fun r0 =>
    (debounced PB1 hoursUp r0.1 r0.2).bind fun r1 =>
    (debounced PB3 minutesDown r1.1 r1.2).bind fun r3 =>
    (debounced PB4 minutesUp r3.1 r3.2).bind fun r4 =>
    (debounced PB5 secondsDown r4.1 r4.2).bind fun r5 =>
    debounced PB6 secondsUp r5.1 r5.2
  else some (st, pins)

/-! ## Runs of the machine -/

/-- What can happen to the machine: the three external interrupts, the timer
interrupt, and one pass of the main loop through `MODE` or `ADJUST_TIME` with
the samples of `PINB` it reads. -/
inductive Event where
  | tick
  | reset
  | pause
  | resume
  | modePoll (pins : List Nat)
  | adjustPoll (pins : List Nat)
  deriving DecidableEq, Repr

/-- One event; `none` when a polling routine does not return on its samples. -/
def step (st : State) : Event → Option State
  | .tick => some (ISR_TIMER1_COMPA st)
  | .reset => some (ISR_INT0 st)
  | .pause => some (ISR_INT1 st)
  | .resume => some (ISR_INT2 st)
  | .modePoll pins => (MODE st pins).map Prod.fst
  | .adjustPoll pins => (ADJUST_TIME st pins).map Prod.fst

/-- A sequence of events, from left to right. -/
def run (st : State) : List Event → Option State
  | [] => some st
  | e :: es => (step st e).bind fun st' => run st' es

/-- A state the machine can be in after some sequence of events from `initState`. -/
def Reachable (st : State) : Prop := ∃ es, run initState es = some st

/-- The timer clock is selected: `CS12` and `CS10` are both set in `TCCR1B`. -/
def running (st : State) : Bool := bitIsSet st.TCCR1B CS12 && bitIsSet st.TCCR1B CS10

/-- The timer is stopped: `CS12` and `CS10` are both clear in `TCCR1B`
(the condition of line 185). -/
def paused (st : State) : Bool := !bitIsSet st.TCCR1B CS12 && !bitIsSet st.TCCR1B CS10

/-! ## Concrete states used as examples -/

/-- The timer stopped by the pause handler, showing the given time. -/
def pausedAt (h m s : Nat) : State := { ISR_INT1 initState with h := h, m := m, s := s }

/-- The timer running in count-down mode, showing the given time. -/
def countingDownFrom (h m s : Nat) : State := { toggleMode initState with h := h, m := m, s := s }

/-- Samples of `PINB` for one pass of `ADJUST_TIME` in which only the hours-up
button (`PB1`) is pressed: seen low twice, then released. -/
def hoursUpPress : List Nat := [0xFF, 0xFD, 0xFD, 0xFF, 0xFF, 0xFF, 0xFF, 0xFF]

/-- Samples of `PINB` for one pass of `MODE` in which the mode button (`PB7`)
is seen low twice, held for one more sample, then released. -/
def modePress : List Nat := [0x7F, 0x7F, 0x7F, 0xFF]

/-- The state one tick after the count-down has reached 00:00:00: time
00:00:00, count-down mode, alarm output high, timer stopped. -/
def alarmedAtZero : State := count_down (countingDownFrom 0 0 0)

/-- From the start of the main loop: the mode button is pressed (count-down at
00:00:00), the timer ticks once, and the mode button is pressed again. -/
def alarmThenToggle : List Event := [.modePoll modePress, .tick, .modePoll modePress]

/-- The state after the events of `alarmThenToggle`: count-up mode with the
alarm output still high. -/
def toggledAfterAlarm : State := toggleMode (ISR_TIMER1_COMPA (toggleMode initState))

/-! ## Button presses as samples of `PINB` -/

/-- The samples of `PINB` that one polled button block reads during a press:
the sample at the first test, the sample after the debounce delay, the samples
the wait loop reads while the button is still down, and the sample that ends
the wait loop. -/
structure Press where
  first : Nat
  second : Nat
  held : List Nat
  release : Nat
  deriving DecidableEq, Repr

/-- The samples of a press, followed by the samples read afterwards. -/
def Press.samples (x : Press) (rest : List Nat) : List Nat :=
  x.first :: x.second :: (x.held ++ x.release :: rest)

/-- The press is a confirmed press of the button on line `bit`: the line is low
at the first test, after the debounce delay and for every sample of the wait
loop but the last, which is high. -/
def Press.confirmed (bit : Nat) (x : Press) : Prop :=
  pressed bit x.first = true ∧ pressed bit x.second = true ∧
    (∀ p ∈ x.held, pressed bit p = true) ∧ pressed bit x.release = false

instance (bit : Nat) (x : Press) : Decidable (x.confirmed bit) := by
  unfold Press.confirmed; infer_instance

/-- None of the six adjustment buttons is pressed in the sample. -/
def noAdjustPressed (p : Nat) : Bool :=
  !pressed PB0 p && !pressed PB1 p && !pressed PB3 p && !pressed PB4 p &&
    !pressed PB5 p && !pressed PB6 p

/-- A press seen on every line of port B, held for `n` samples of the wait
loop: all lines low, then all lines high. -/
def pressAll (n : Nat) : Press :=
  { first := 0x00, second := 0x00, held := List.replicate n 0x00, release := 0xFF }

/-! ## The variant of `count_down` without the hours guard -/

/-- The function `count_down` with `if(h > 0) h--;` of line 121 replaced by an
unconditional `h--;` on the 8-bit `h`; everything else as in lines 110-131. -/
def count_down_unguarded (st : State) : State :=
  if st.s = 0 ∧ st.m = 0 ∧ st.h = 0 then
    let st := { st with TCCR1B := st.TCCR1B &&& not8 ((1 <<< CS12) ||| (1 <<< CS10)) }
    { st with PORTD := st.PORTD ||| (1 <<< PD0) }
  else
    let st := { st with PORTD := st.PORTD &&& not8 (1 <<< PD0) }
    if st.s = 0 then
      let st := { st with s := 59 }
      if st.m = 0 then
        let st := { st with m := 59 }
        { st with h := (st.h + 255) % 256 }
      else
        { st with m := st.m - 1 }
    else
      { st with s := st.s - 1 }

/-! ## The mode indicator lines -/

/-- The indicator lines agree with the mode: either `mode` is 1 with `PD4` high
and `PD5` low, or `mode` is 0 with `PD4` low and `PD5` high. -/
def ModeShown (st : State) : Prop :=
  (st.mode = 1 ∧ bitIsSet st.PORTD PD4 = true ∧ bitIsSet st.PORTD PD5 = false) ∨
  (st.mode = 0 ∧ bitIsSet st.PORTD PD4 = false ∧ bitIsSet st.PORTD PD5 = true)

instance (st : State) : Decidable (ModeShown st) := by
  unfold ModeShown; infer_instance

/-! ## Bits -/

theorem bitIsSet_eq_testBit (x bit : Nat) : bitIsSet x bit = x.testBit bit := by
  have key : x &&& 2 ^ bit = if x.testBit bit then 2 ^ bit else 0 := by
    apply Nat.eq_of_testBit_eq
    intro j
    by_cases hx : x.testBit bit = true
    · simp only [hx, if_true, Nat.testBit_and, Nat.testBit_two_pow]
      by_cases hj : bit = j
      · subst hj; simp [hx]
      · simp [hj]
    · simp only [hx, Nat.testBit_and, Nat.testBit_two_pow]
      by_cases hj : bit = j
      · subst hj; simp [hx]
      · simp [hj]
  unfold bitIsSet
  rw [Nat.one_shiftLeft, key]
  by_cases hx : x.testBit bit = true
  · have : (2 : Nat) ^ bit ≠ 0 := by positivity
    simp [hx]
  · simp [hx]

theorem alarm_eq_testBit (st : State) : alarm st = st.PORTD.testBit 0 := by
  unfold alarm PD0
  exact bitIsSet_eq_testBit _ _

theorem bitIsSet_clear_PD0 (x : Nat) : bitIsSet (x &&& not8 (1 <<< PD0)) PD0 = false := by
  have hmask : (not8 (1 <<< PD0)).testBit PD0 = false := by decide
  rw [bitIsSet_eq_testBit, Nat.testBit_and, hmask, Bool.and_false]

theorem bitIsSet_set_PD0 (x : Nat) : bitIsSet (x ||| (1 <<< PD0)) PD0 = true := by
  have hmask : (1 <<< PD0).testBit PD0 = true := by decide
  rw [bitIsSet_eq_testBit, Nat.testBit_or, hmask, Bool.or_true]

/-! ## The tick functions, field by field -/

theorem count_up_mode (st : State) : (count_up st).mode = st.mode := by
  unfold count_up
  simp only []
  split_ifs <;> rfl

theorem count_up_TCCR1B (st : State) : (count_up st).TCCR1B = st.TCCR1B := by
  unfold count_up
  simp only []
  split_ifs <;> rfl

theorem count_up_PORTD (st : State) :
    (count_up st).PORTD = st.PORTD &&& not8 (1 <<< PD0) := by
  unfold count_up
  simp only []
  split_ifs <;> rfl

theorem count_up_alarm (st : State) : alarm (count_up st) = false := by
  unfold alarm
  rw [count_up_PORTD]
  exact bitIsSet_clear_PD0 _

theorem count_up_inBounds (st : State) (hb : InBounds st) : InBounds (count_up st) := by
  obtain ⟨hs, hm, hh⟩ := hb
  unfold count_up InBounds
  simp only []
  split_ifs <;> dsimp only at * <;> omega

theorem count_up_totalSeconds (st : State) (hb : InBounds st) :
    totalSeconds (count_up st) = (totalSeconds st + 1) % 86400 := by
  obtain ⟨hs, hm, hh⟩ := hb
  unfold count_up totalSeconds
  simp only []
  split_ifs <;> dsimp only at * <;> omega

theorem count_down_mode (st : State) : (count_down st).mode = st.mode := by
  unfold count_down
  simp only []
  split_ifs <;> rfl

theorem count_down_inBounds (st : State) (hb : InBounds st) : InBounds (count_down st) := by
  obtain ⟨hs, hm, hh⟩ := hb
  unfold count_down InBounds
  simp only []
  split_ifs <;> dsimp only at * <;> omega

theorem count_down_zero (st : State) (hz : st.s = 0 ∧ st.m = 0 ∧ st.h = 0) :
    count_down st =
      { st with TCCR1B := st.TCCR1B &&& not8 ((1 <<< CS12) ||| (1 <<< CS10)),
                PORTD := st.PORTD ||| (1 <<< PD0) } := by
  unfold count_down
  rw [if_pos hz]

theorem count_down_totalSeconds (st : State) (hb : InBounds st) :
    totalSeconds (count_down st) = totalSeconds st - 1 := by
  obtain ⟨hs, hm, hh⟩ := hb
  unfold count_down totalSeconds
  simp only []
  split_ifs <;> dsimp only at * <;> omega

theorem count_down_alarm_of_nonzero (st : State) (hnz : ¬ (st.s = 0 ∧ st.m = 0 ∧ st.h = 0)) :
    alarm (count_down st) = false := by
  unfold count_down alarm
  rw [if_neg hnz]
  simp only []
  split_ifs <;> exact bitIsSet_clear_PD0 _

theorem count_down_TCCR1B_of_nonzero (st : State)
    (hnz : ¬ (st.s = 0 ∧ st.m = 0 ∧ st.h = 0)) :
    (count_down st).TCCR1B = st.TCCR1B := by
  unfold count_down
  rw [if_neg hnz]
  simp only []
  split_ifs <;> rfl

theorem totalSeconds_eq_zero (st : State) :
    totalSeconds st = 0 ↔ st.s = 0 ∧ st.m = 0 ∧ st.h = 0 := by
  unfold totalSeconds
  omega

theorem time_eq_zero (st : State) :
    time st = (0, 0, 0) ↔ st.s = 0 ∧ st.m = 0 ∧ st.h = 0 := by
  unfold time
  simp only [Prod.mk.injEq]
  tauto

theorem bitIsSet_clear_CS12 (x : Nat) :
    bitIsSet (x &&& not8 ((1 <<< CS12) ||| (1 <<< CS10))) CS12 = false := by
  have hmask : (not8 ((1 <<< CS12) ||| (1 <<< CS10))).testBit CS12 = false := by decide
  rw [bitIsSet_eq_testBit, Nat.testBit_and, hmask, Bool.and_false]

theorem bitIsSet_clear_CS10 (x : Nat) :
    bitIsSet (x &&& not8 ((1 <<< CS12) ||| (1 <<< CS10))) CS10 = false := by
  have hmask : (not8 ((1 <<< CS12) ||| (1 <<< CS10))).testBit CS10 = false := by decide
  rw [bitIsSet_eq_testBit, Nat.testBit_and, hmask, Bool.and_false]

/-! ## Polling routines preserve what their actions preserve -/

theorem debounced_cases (bit : Nat) (act : State → State) (st : State) (pins : List Nat)
    (r : State × List Nat) (hr : debounced bit act st pins = some r) :
    r.1 = st ∨ r.1 = act st := by
  unfold debounced at hr
  split at hr
  · cases hr
  · split_ifs at hr
    · split at hr
      · cases hr
      · split_ifs at hr
        · split at hr
          · cases hr
          · cases hr; right; rfl
        · cases hr; left; rfl
    · cases hr; left; rfl

theorem debounced_preserves (P : State → Prop) (bit : Nat) (act : State → State)
    (hact : ∀ st, P st → P (act st)) (st : State) (pins : List Nat)
    (r : State × List Nat) (hP : P st) (hr : debounced bit act st pins = some r) : P r.1 := by
  rcases debounced_cases bit act st pins r hr with h | h
  · rw [h]; exact hP
  · rw [h]; exact hact st hP

theorem ADJUST_TIME_preserves (P : State → Prop)
    (h0 : ∀ st, P st → P (hoursDown st)) (h1 : ∀ st, P st → P (hoursUp st))
    (h3 : ∀ st, P st → P (minutesDown st)) (h4 : ∀ st, P st → P (minutesUp st))
    (h5 : ∀ st, P st → P (secondsDown st)) (h6 : ∀ st, P st → P (secondsUp st))
    (st : State) (pins : List Nat) (r : State × List Nat) (hP : P st)
    (hr : ADJUST_TIME st pins = some r) : P r.1 := by
  unfold ADJUST_TIME at hr
  split_ifs at hr
  · simp only [Option.bind_eq_some] at hr
    obtain ⟨r0, e0, r1, e1, r3, e3, r4, e4, r5, e5, e6⟩ := hr
    have p0 := debounced_preserves P PB0 hoursDown h0 st pins r0 hP e0
    have p1 := debounced_preserves P PB1 hoursUp h1 _ _ r1 p0 e1
    have p3 := debounced_preserves P PB3 minutesDown h3 _ _ r3 p1 e3
    have p4 := debounced_preserves P PB4 minutesUp h4 _ _ r4 p3 e4
    have p5 := debounced_preserves P PB5 secondsDown h5 _ _ r5 p4 e5
    exact debounced_preserves P PB6 secondsUp h6 _ _ r p5 e6
  · cases hr; exact hP

theorem MODE_preserves (P : State → Prop) (hact : ∀ st, P st → P (toggleMode st))
    (st : State) (pins : List Nat) (r : State × List Nat) (hP : P st)
    (hr : MODE st pins = some r) : P r.1 :=
  debounced_preserves P PB7 toggleMode hact st pins r hP hr

theorem run_preserves (P : State → Prop)
    (hstep : ∀ st e st', P st → step st e = some st' → P st') :
    ∀ (es : List Event) (st st' : State), P st → run st es = some st' → P st' := by
  intro es
  induction es with
  | nil =>
    intro st st' hP hr
    simp only [run, Option.some.injEq] at hr
    rw [← hr]; exact hP
  | cons e es ih =>
    intro st st' hP hr
    simp only [run, Option.bind_eq_some] at hr
    obtain ⟨st1, h1, h2⟩ := hr
    exact ih st1 st' (hstep st e st1 hP h1) h2

/-! ## Bounds -/

theorem hoursDown_inBounds (st : State) (hb : InBounds st) : InBounds (hoursDown st) := by
  obtain ⟨hs, hm, hh⟩ := hb
  unfold hoursDown InBounds
  dsimp only
  split_ifs <;> omega

theorem hoursUp_inBounds (st : State) (hb : InBounds st) : InBounds (hoursUp st) := by
  obtain ⟨hs, hm, hh⟩ := hb
  unfold hoursUp InBounds
  dsimp only
  omega

theorem minutesDown_inBounds (st : State) (hb : InBounds st) : InBounds (minutesDown st) := by
  obtain ⟨hs, hm, hh⟩ := hb
  unfold minutesDown InBounds
  dsimp only
  split_ifs <;> omega

theorem minutesUp_inBounds (st : State) (hb : InBounds st) : InBounds (minutesUp st) := by
  obtain ⟨hs, hm, hh⟩ := hb
  unfold minutesUp InBounds
  dsimp only
  omega

theorem secondsDown_inBounds (st : State) (hb : InBounds st) : InBounds (secondsDown st) := by
  obtain ⟨hs, hm, hh⟩ := hb
  unfold secondsDown InBounds
  dsimp only
  split_ifs <;> omega

theorem secondsUp_inBounds (st : State) (hb : InBounds st) : InBounds (secondsUp st) := by
  obtain ⟨hs, hm, hh⟩ := hb
  unfold secondsUp InBounds
  dsimp only
  omega

theorem ISR_TIMER1_COMPA_inBounds (st : State) (hb : InBounds st) :
    InBounds (ISR_TIMER1_COMPA st) := by
  unfold ISR_TIMER1_COMPA
  split_ifs
  · exact count_up_inBounds st hb
  · exact count_down_inBounds st hb

theorem ADJUST_TIME_inBounds (st : State) (pins : List Nat) (r : State × List Nat)
    (hb : InBounds st) (hr : ADJUST_TIME st pins = some r) : InBounds r.1 :=
  ADJUST_TIME_preserves InBounds hoursDown_inBounds hoursUp_inBounds minutesDown_inBounds
    minutesUp_inBounds secondsDown_inBounds secondsUp_inBounds st pins r hb hr

theorem step_inBounds (st : State) (e : Event) (st' : State) (hb : InBounds st)
    (hs : step st e = some st') : InBounds st' := by
  cases e with
  | tick =>
    simp only [step, Option.some.injEq] at hs
    rw [← hs]; exact ISR_TIMER1_COMPA_inBounds st hb
  | reset =>
    simp only [step, Option.some.injEq] at hs
    rw [← hs]; exact ⟨Nat.zero_le _, Nat.zero_le _, Nat.zero_le _⟩
  | pause =>
    simp only [step, Option.some.injEq] at hs
    rw [← hs]; exact hb
  | resume =>
    simp only [step, Option.some.injEq] at hs
    rw [← hs]; exact hb
  | modePoll pins =>
    simp only [step, Option.map_eq_some'] at hs
    obtain ⟨r, hr, hfst⟩ := hs
    rw [← hfst]
    exact MODE_preserves InBounds (fun _ h => h) st pins r hb hr
  | adjustPoll pins =>
    simp only [step, Option.map_eq_some'] at hs
    obtain ⟨r, hr, hfst⟩ := hs
    rw [← hfst]
    exact ADJUST_TIME_inBounds st pins r hb hr

/-! ## Count-down runs -/

theorem ISR_TIMER1_COMPA_of_countDown (st : State) (hmode : st.mode ≠ 1) :
    ISR_TIMER1_COMPA st = count_down st := by
  unfold ISR_TIMER1_COMPA
  rw [if_neg hmode]

theorem count_down_time_of_zero (st : State) (hz : time st = (0, 0, 0)) :
    time (count_down st) = (0, 0, 0) ∧ alarm (count_down st) = true ∧
      bitIsSet (count_down st).TCCR1B CS12 = false ∧
      bitIsSet (count_down st).TCCR1B CS10 = false := by
  have hz' := (time_eq_zero st).1 hz
  rw [count_down_zero st hz']
  refine ⟨hz, ?_, ?_, ?_⟩
  · exact bitIsSet_set_PD0 _
  · exact bitIsSet_clear_CS12 _
  · exact bitIsSet_clear_CS10 _

theorem count_down_iterate_of_zero (k : Nat) (st : State) (hz : time st = (0, 0, 0)) :
    time (count_down^[k] st) = (0, 0, 0) ∧ (1 ≤ k → alarm (count_down^[k] st) = true) := by
  induction k with
  | zero => exact ⟨hz, fun h => absurd h (by decide)⟩
  | succ k ih =>
    rw [Function.iterate_succ_apply']
    have h := count_down_time_of_zero _ ih.1
    exact ⟨h.1, fun _ => h.2.1⟩

theorem tick_iterate_mode_of_countDown (k : Nat) (st : State) (hmode : st.mode ≠ 1) :
    ISR_TIMER1_COMPA^[k] st = count_down^[k] st ∧ (count_down^[k] st).mode = st.mode := by
  induction k with
  | zero => exact ⟨rfl, rfl⟩
  | succ k ih =>
    rw [Function.iterate_succ_apply', Function.iterate_succ_apply', ih.1]
    have hm : (count_down^[k] st).mode ≠ 1 := by rw [ih.2]; exact hmode
    exact ⟨ISR_TIMER1_COMPA_of_countDown _ hm, by rw [count_down_mode, ih.2]⟩

theorem count_down_iterate_total (n : Nat) :
    ∀ st : State, InBounds st → totalSeconds st = n →
      time (count_down^[n] st) = (0, 0, 0) ∧
      (1 ≤ n → alarm (count_down^[n] st) = false) ∧
      (count_down^[n] st).TCCR1B = st.TCCR1B := by
  induction n with
  | zero =>
    intro st _ ht
    exact ⟨(time_eq_zero st).2 ((totalSeconds_eq_zero st).1 ht),
      fun h => absurd h (by decide), rfl⟩
  | succ n ih =>
    intro st hb ht
    have hnz : ¬ (st.s = 0 ∧ st.m = 0 ∧ st.h = 0) := by
      intro hz
      have := (totalSeconds_eq_zero st).2 hz
      omega
    have ht' : totalSeconds (count_down st) = n := by
      rw [count_down_totalSeconds st hb, ht]; rfl
    obtain ⟨h1, h2, h3⟩ := ih (count_down st) (count_down_inBounds st hb) ht'
    rw [Function.iterate_succ_apply]
    refine ⟨h1, fun _ => ?_, ?_⟩
    · rcases Nat.eq_zero_or_pos n with hn | hn
      · subst hn
        exact count_down_alarm_of_nonzero st hnz
      · exact h2 hn
    · rw [h3, count_down_TCCR1B_of_nonzero st hnz]

/-! ## Claims -/

/-- C1: the bounds s ≤ 59, m ≤ 59, h ≤ 23 are kept by `count_up`, by
`count_down`, by the reset handler, by each of the six adjustment actions and
by every pass of `ADJUST_TIME` that returns; the state at the start of the main
loop shows 00:00:00, and every state reachable from it by any sequence of
ticks, resets, pauses, resumes and passes of `MODE` and `ADJUST_TIME` is within
the bounds. -/
theorem time_bounds_invariant :
    (∀ st : State, InBounds st →
      InBounds (count_up st) ∧ InBounds (count_down st) ∧ InBounds (ISR_INT0 st) ∧
      InBounds (hoursDown st) ∧ InBounds (hoursUp st) ∧
      InBounds (minutesDown st) ∧ InBounds (minutesUp st) ∧
      InBounds (secondsDown st) ∧ InBounds (secondsUp st) ∧
      ∀ pins st' rest, ADJUST_TIME st pins = some (st', rest) → InBounds st') ∧
    time initState = (0, 0, 0) ∧
    ∀ st : State, Reachable st → InBounds st := by
  refine ⟨fun st hb => ⟨count_up_inBounds st hb, count_down_inBounds st hb,
      ⟨Nat.zero_le _, Nat.zero_le _, Nat.zero_le _⟩,
      hoursDown_inBounds st hb, hoursUp_inBounds st hb, minutesDown_inBounds st hb,
      minutesUp_inBounds st hb, secondsDown_inBounds st hb, secondsUp_inBounds st hb,
      fun pins st' rest hr => ADJUST_TIME_inBounds st pins (st', rest) hb hr⟩,
    by decide, ?_⟩
  rintro st ⟨es, hes⟩
  exact run_preserves InBounds step_inBounds es initState st (by decide) hes

/-- Witness for C1: at 23:59:59 with the timer paused, a confirmed press of the
hours-up button is handled by `ADJUST_TIME` and gives 00:59:59; that state and
the states after `count_up`, `count_down` and reset are within the bounds. -/
theorem time_bounds_invariant_witness :
    InBounds (pausedAt 23 59 59) ∧
    (∃ st', ADJUST_TIME (pausedAt 23 59 59) hoursUpPress = some (st', []) ∧
      time st' = (0, 59, 59) ∧ InBounds st') ∧
    InBounds (count_up (pausedAt 23 59 59)) ∧
    InBounds (count_down (pausedAt 23 59 59)) ∧
    InBounds (ISR_INT0 (pausedAt 23 59 59)) :=
  have hb : InBounds (pausedAt 23 59 59) := by decide
  have h := time_bounds_invariant.1 (pausedAt 23 59 59) hb
  ⟨hb,
    ⟨hoursUp (pausedAt 23 59 59), by decide, by decide,
      h.2.2.2.2.2.2.2.2.2 hoursUpPress (hoursUp (pausedAt 23 59 59)) [] (by decide)⟩,
    h.1, h.2.1, h.2.2.1⟩

/-- C2, as amended: from an in-bounds time of N ≥ 1 seconds in count-down mode
with the timer running, N ticks bring the time to 00:00:00 with the alarm
output still low and the timer still running; the tick after that leaves the
time at 00:00:00 and raises the alarm output. -/
theorem countdown_reaches_zero (st : State) (N : Nat) (hb : InBounds st)
    (hmode : st.mode = 0) (hrun : running st = true) (hN : totalSeconds st = N)
    (hpos : 1 ≤ N) :
    time (ISR_TIMER1_COMPA^[N] st) = (0, 0, 0) ∧
    alarm (ISR_TIMER1_COMPA^[N] st) = false ∧
    running (ISR_TIMER1_COMPA^[N] st) = true ∧
    time (ISR_TIMER1_COMPA^[N + 1] st) = (0, 0, 0) ∧
    alarm (ISR_TIMER1_COMPA^[N + 1] st) = true := by
  have hm1 : st.mode ≠ 1 := by rw [hmode]; decide
  obtain ⟨ht, ha, hreg⟩ := count_down_iterate_total N st hb hN
  have hz := count_down_time_of_zero _ ht
  rw [Function.iterate_succ_apply', (tick_iterate_mode_of_countDown N st hm1).1]
  have hmN : (count_down^[N] st).mode ≠ 1 := by
    rw [(tick_iterate_mode_of_countDown N st hm1).2]; exact hm1
  rw [ISR_TIMER1_COMPA_of_countDown _ hmN]
  refine ⟨ht, ha hpos, ?_, hz.1, hz.2.1⟩
  unfold running
  rw [hreg]
  exact hrun

/-- Witness for C2 as amended, at 00:00:10. -/
theorem countdown_reaches_zero_witness :
    time (ISR_TIMER1_COMPA^[10] (countingDownFrom 0 0 10)) = (0, 0, 0) ∧
    alarm (ISR_TIMER1_COMPA^[10] (countingDownFrom 0 0 10)) = false ∧
    running (ISR_TIMER1_COMPA^[10] (countingDownFrom 0 0 10)) = true ∧
    time (ISR_TIMER1_COMPA^[10 + 1] (countingDownFrom 0 0 10)) = (0, 0, 0) ∧
    alarm (ISR_TIMER1_COMPA^[10 + 1] (countingDownFrom 0 0 10)) = true :=
  countdown_reaches_zero (countingDownFrom 0 0 10) 10 (by decide) (by decide) (by decide)
    (by decide) (by decide)

/-- C2 as stated fails at 00:00:10: the start state is in bounds, in count-down
mode, running, with a total of 10 seconds, and after exactly 10 ticks the time
is 00:00:00 but the alarm output is not asserted. -/
theorem countdown_alarm_after_N_ticks_counterexample :
    InBounds (countingDownFrom 0 0 10) ∧ (countingDownFrom 0 0 10).mode = 0 ∧
    running (countingDownFrom 0 0 10) = true ∧
    totalSeconds (countingDownFrom 0 0 10) = 10 ∧
    ¬ (time (ISR_TIMER1_COMPA^[10] (countingDownFrom 0 0 10)) = (0, 0, 0) ∧
       alarm (ISR_TIMER1_COMPA^[10] (countingDownFrom 0 0 10)) = true) := by
  decide

/-- C3: `count_down` at s = m = h = 0 leaves the time at 00:00:00, raises the
alarm output `PD0` and clears `CS12` and `CS10`, so that the timer is stopped;
any k ≥ 1 successive applications of `count_down`, and any k ≥ 1 successive
timer ticks in a mode other than count-up, leave the time at 00:00:00 with the
alarm output high. -/
theorem count_down_zero_terminal (st : State) (hz : st.s = 0 ∧ st.m = 0 ∧ st.h = 0) :
    time (count_down st) = (0, 0, 0) ∧
    alarm (count_down st) = true ∧
    bitIsSet (count_down st).TCCR1B CS12 = false ∧
    bitIsSet (count_down st).TCCR1B CS10 = false ∧
    paused (count_down st) = true ∧
    (∀ k, 1 ≤ k →
      time (count_down^[k] st) = (0, 0, 0) ∧ alarm (count_down^[k] st) = true) ∧
    (st.mode ≠ 1 → ∀ k, 1 ≤ k →
      time (ISR_TIMER1_COMPA^[k] st) = (0, 0, 0) ∧
      alarm (ISR_TIMER1_COMPA^[k] st) = true) := by
  have hz' : time st = (0, 0, 0) := (time_eq_zero st).2 hz
  obtain ⟨h1, h2, h3, h4⟩ := count_down_time_of_zero st hz'
  refine ⟨h1, h2, h3, h4, ?_, ?_, ?_⟩
  · unfold paused
    rw [h3, h4]
    rfl
  · intro k hk
    have h := count_down_iterate_of_zero k st hz'
    exact ⟨h.1, h.2 hk⟩
  · intro hmode k hk
    rw [(tick_iterate_mode_of_countDown k st hmode).1]
    have h := count_down_iterate_of_zero k st hz'
    exact ⟨h.1, h.2 hk⟩

/-- Witness for C3, at 00:00:00 in count-down mode with the timer running:
the state is not changed into 23:59:59, and three more ticks keep it at zero
with the alarm on. -/
theorem count_down_zero_terminal_witness :
    running (countingDownFrom 0 0 0) = true ∧
    time (count_down (countingDownFrom 0 0 0)) = (0, 0, 0) ∧
    alarm (count_down (countingDownFrom 0 0 0)) = true ∧
    paused (count_down (countingDownFrom 0 0 0)) = true ∧
    time (ISR_TIMER1_COMPA^[3] (countingDownFrom 0 0 0)) = (0, 0, 0) ∧
    alarm (ISR_TIMER1_COMPA^[3] (countingDownFrom 0 0 0)) = true :=
  have h := count_down_zero_terminal (countingDownFrom 0 0 0) (by decide)
  ⟨by decide, h.1, h.2.1, h.2.2.2.2.1, h.2.2.2.2.2.2 (by decide) 3 (by decide)⟩

/-! ## Round trips -/

theorem count_up_iterate_totalSeconds (n : Nat) :
    ∀ st : State, InBounds st →
      InBounds (count_up^[n] st) ∧
      totalSeconds (count_up^[n] st) = (totalSeconds st + n) % 86400 := by
  induction n with
  | zero =>
    intro st hb
    obtain ⟨hs, hm, hh⟩ := hb
    refine ⟨⟨hs, hm, hh⟩, ?_⟩
    simp only [Function.iterate_zero, id_eq]
    unfold totalSeconds
    omega
  | succ n ih =>
    intro st hb
    obtain ⟨hb', ht⟩ := ih st hb
    rw [Function.iterate_succ_apply']
    refine ⟨count_up_inBounds _ hb', ?_⟩
    rw [count_up_totalSeconds _ hb', ht]
    omega

theorem time_eq_of_totalSeconds_eq (st st' : State) (hb : InBounds st) (hb' : InBounds st')
    (ht : totalSeconds st = totalSeconds st') : time st = time st' := by
  obtain ⟨hs, hm, hh⟩ := hb
  obtain ⟨hs', hm', hh'⟩ := hb'
  unfold totalSeconds at ht
  unfold time
  have e1 : st.h = st'.h := by omega
  have e2 : st.m = st'.m := by omega
  have e3 : st.s = st'.s := by omega
  rw [e1, e2, e3]

/-- C4, as amended: for every in-bounds time other than 23:59:59, zero
included, `count_up` followed by `count_down` restores (s, m, h); at 23:59:59
`count_up` wraps to 00:00:00 and `count_down` then stays at 00:00:00. -/
theorem count_up_then_count_down (st : State) (hb : InBounds st) :
    (time st ≠ (23, 59, 59) → time (count_down (count_up st)) = time st) ∧
    (time st = (23, 59, 59) → time (count_down (count_up st)) = (0, 0, 0)) := by
  have hup := count_up_totalSeconds st hb
  have hbu := count_up_inBounds st hb
  have hdn := count_down_totalSeconds (count_up st) hbu
  have hbd := count_down_inBounds (count_up st) hbu
  obtain ⟨hs, hm, hh⟩ := hb
  constructor
  · intro hne
    apply time_eq_of_totalSeconds_eq _ _ hbd ⟨hs, hm, hh⟩
    have hlt : totalSeconds st ≠ 86399 := by
      intro h
      apply hne
      unfold totalSeconds at h
      unfold time
      have e1 : st.h = 23 := by omega
      have e2 : st.m = 59 := by omega
      have e3 : st.s = 59 := by omega
      rw [e1, e2, e3]
    have hle : totalSeconds st ≤ 86399 := by unfold totalSeconds; omega
    omega
  · intro he
    have h : totalSeconds st = 86399 := by
      unfold time at he
      simp only [Prod.mk.injEq] at he
      unfold totalSeconds
      omega
    apply (time_eq_zero _).2
    apply (totalSeconds_eq_zero _).1
    omega

/-- Witness for C4 as amended, at 12:59:59 and at 23:59:59. -/
theorem count_up_then_count_down_witness :
    time (count_down (count_up (pausedAt 12 59 59))) = time (pausedAt 12 59 59) ∧
    time (count_down (count_up (pausedAt 23 59 59))) = (0, 0, 0) :=
  ⟨(count_up_then_count_down (pausedAt 12 59 59) (by decide)).1 (by decide),
   (count_up_then_count_down (pausedAt 23 59 59) (by decide)).2 (by decide)⟩

/-- C4 as stated fails at the hour-wrap boundary: 23:59:59 is in bounds and not
zero, and `count_up` followed by `count_down` gives 00:00:00. -/
theorem count_up_then_count_down_counterexample :
    InBounds (countingDownFrom 23 59 59) ∧ time (countingDownFrom 23 59 59) ≠ (0, 0, 0) ∧
    time (count_down (count_up (countingDownFrom 23 59 59))) ≠
      time (countingDownFrom 23 59 59) := by
  decide

/-- C5: for every in-bounds time other than 00:00:00, `count_down` followed by
`count_up` restores (s, m, h). -/
theorem count_down_then_count_up (st : State) (hb : InBounds st)
    (hnz : time st ≠ (0, 0, 0)) : time (count_up (count_down st)) = time st := by
  have hdn := count_down_totalSeconds st hb
  have hbd := count_down_inBounds st hb
  have hup := count_up_totalSeconds (count_down st) hbd
  have hbu := count_up_inBounds (count_down st) hbd
  apply time_eq_of_totalSeconds_eq _ _ hbu hb
  have hpos : totalSeconds st ≠ 0 := fun h =>
    hnz ((time_eq_zero st).2 ((totalSeconds_eq_zero st).1 h))
  obtain ⟨hs, hm, hh⟩ := hb
  have hle : totalSeconds st ≤ 86399 := by unfold totalSeconds; omega
  omega

/-- Witness for C5, at 01:00:00, where the borrow runs through all three
fields. -/
theorem count_down_then_count_up_witness :
    time (count_down (pausedAt 1 0 0)) = (0, 59, 59) ∧
    time (count_up (count_down (pausedAt 1 0 0))) = time (pausedAt 1 0 0) :=
  ⟨by decide, count_down_then_count_up (pausedAt 1 0 0) (by decide) (by decide)⟩

/-- C6: for every in-bounds time, 86400 successive applications of `count_up`
give the same (s, m, h) again. -/
theorem full_day_round_trip (st : State) (hb : InBounds st) :
    time (count_up^[86400] st) = time st := by
  obtain ⟨hb', ht⟩ := count_up_iterate_totalSeconds 86400 st hb
  apply time_eq_of_totalSeconds_eq _ _ hb' hb
  rw [ht]
  obtain ⟨hs, hm, hh⟩ := hb
  unfold totalSeconds
  omega

/-- Witness for C6, from 00:00:00. -/
theorem full_day_round_trip_witness :
    time (count_up^[86400] initState) = (0, 0, 0) :=
  (full_day_round_trip initState (by decide)).trans (by decide)

/-! ## Confirmed presses -/

theorem waitRelease_held (bit : Nat) (held : List Nat) (pr : Nat) (rest : List Nat)
    (hheld : ∀ p ∈ held, pressed bit p = true) (hrel : pressed bit pr = false) :
    waitRelease bit (held ++ pr :: rest) = some rest := by
  induction held with
  | nil => simp [waitRelease, hrel]
  | cons p ps ih =>
    have hp : pressed bit p = true := hheld p (List.mem_cons_self p ps)
    have hps : ∀ q ∈ ps, pressed bit q = true := fun q hq =>
      hheld q (List.mem_cons_of_mem p hq)
    simp [waitRelease, hp, ih hps]

theorem debounced_confirmed (bit : Nat) (act : State → State) (st : State)
    (p0 p1 : Nat) (held : List Nat) (pr : Nat) (rest : List Nat)
    (h0 : pressed bit p0 = true) (h1 : pressed bit p1 = true)
    (hheld : ∀ p ∈ held, pressed bit p = true) (hrel : pressed bit pr = false) :
    debounced bit act st (p0 :: p1 :: (held ++ pr :: rest)) = some (act st, rest) := by
  simp [debounced, h0, h1, waitRelease_held bit held pr rest hheld hrel]

theorem toggleMode_alarm (st : State) : alarm (toggleMode st) = alarm st := by
  have hmask : ((1 <<< PD5) ^^^ (1 <<< PD4)).testBit PD0 = false := by decide
  unfold alarm toggleMode
  dsimp only
  rw [bitIsSet_eq_testBit, bitIsSet_eq_testBit, Nat.testBit_xor, hmask, Bool.xor_false]

/-- C7, as amended: a confirmed press of the mode button (two asserted samples
of `PB7`, any number of further asserted samples, then a de-asserted one) makes
`MODE` return with `mode` and the lines `PD5`, `PD4` toggled and the alarm
output `PD0` as it was: asserted stays asserted. -/
theorem MODE_confirmed_press_keeps_alarm (st : State) (p0 p1 : Nat) (held : List Nat)
    (pr : Nat) (rest : List Nat)
    (h0 : pressed PB7 p0 = true) (h1 : pressed PB7 p1 = true)
    (hheld : ∀ p ∈ held, pressed PB7 p = true) (hrel : pressed PB7 pr = false) :
    MODE st (p0 :: p1 :: (held ++ pr :: rest)) = some (toggleMode st, rest) ∧
    (toggleMode st).mode = st.mode ^^^ 1 ∧
    (toggleMode st).PORTD = st.PORTD ^^^ ((1 <<< PD5) ^^^ (1 <<< PD4)) ∧
    alarm (toggleMode st) = alarm st :=
  ⟨debounced_confirmed PB7 toggleMode st p0 p1 held pr rest h0 h1 hheld hrel, rfl, rfl,
    toggleMode_alarm st⟩

/-- Witness for C7 as amended: with the alarm sounding at 00:00:00 in
count-down mode, a confirmed press switches to count-up and the alarm output
stays high. -/
theorem MODE_confirmed_press_keeps_alarm_witness :
    MODE alarmedAtZero (0x7F :: 0x7F :: ([0x7F] ++ 0xFF :: [])) =
      some (toggleMode alarmedAtZero, []) ∧
    (toggleMode alarmedAtZero).mode = 1 ∧
    alarm (toggleMode alarmedAtZero) = true :=
  have h := MODE_confirmed_press_keeps_alarm alarmedAtZero 0x7F 0x7F [0x7F] 0xFF []
    (by decide) (by decide) (by decide) (by decide)
  ⟨h.1, h.2.1.trans (by decide), h.2.2.2.trans (by decide)⟩

/-- C7 as stated fails: at 00:00:00 in count-down mode with the alarm output
asserted, a confirmed press of the mode button is handled by `MODE` and the
alarm output is still asserted afterwards. -/
theorem MODE_clears_alarm_counterexample :
    time alarmedAtZero = (0, 0, 0) ∧ alarmedAtZero.mode = 0 ∧ alarm alarmedAtZero = true ∧
    MODE alarmedAtZero modePress = some (toggleMode alarmedAtZero, []) ∧
    alarm (toggleMode alarmedAtZero) = true := by
  decide

/-! ## The mode flag and the alarm output along runs -/

theorem toggleMode_mode_01 (st : State) (hm : st.mode = 0 ∨ st.mode = 1) :
    (toggleMode st).mode = 0 ∨ (toggleMode st).mode = 1 := by
  unfold toggleMode
  dsimp only
  rcases hm with h | h
  · right; rw [h]; rfl
  · left; rw [h]; rfl

theorem step_mode_01 (st : State) (e : Event) (st' : State)
    (hm : st.mode = 0 ∨ st.mode = 1) (hs : step st e = some st') :
    st'.mode = 0 ∨ st'.mode = 1 := by
  cases e with
  | tick =>
    simp only [step, Option.some.injEq] at hs
    rw [← hs]
    unfold ISR_TIMER1_COMPA
    split_ifs
    · rw [count_up_mode]; exact hm
    · rw [count_down_mode]; exact hm
  | reset =>
    simp only [step, Option.some.injEq] at hs
    rw [← hs]; exact hm
  | pause =>
    simp only [step, Option.some.injEq] at hs
    rw [← hs]; exact hm
  | resume =>
    simp only [step, Option.some.injEq] at hs
    rw [← hs]; exact hm
  | modePoll pins =>
    simp only [step, Option.map_eq_some'] at hs
    obtain ⟨r, hr, hfst⟩ := hs
    rw [← hfst]
    exact MODE_preserves (fun x => x.mode = 0 ∨ x.mode = 1) toggleMode_mode_01 st pins r hm hr
  | adjustPoll pins =>
    simp only [step, Option.map_eq_some'] at hs
    obtain ⟨r, hr, hfst⟩ := hs
    rw [← hfst]
    exact ADJUST_TIME_preserves (fun x => x.mode = 0 ∨ x.mode = 1)
      (fun _ h => h) (fun _ h => h) (fun _ h => h) (fun _ h => h) (fun _ h => h)
      (fun _ h => h) st pins r hm hr

theorem reachable_mode_01 (st : State) (hr : Reachable st) : st.mode = 0 ∨ st.mode = 1 := by
  obtain ⟨es, hes⟩ := hr
  exact run_preserves (fun x => x.mode = 0 ∨ x.mode = 1) step_mode_01 es initState st
    (Or.inr rfl) hes

theorem step_alarm_of_not_tick (st : State) (e : Event) (st' : State)
    (hne : e ≠ Event.tick) (hs : step st e = some st') (ha : alarm st' = true) :
    alarm st = true := by
  cases e with
  | tick => exact absurd rfl hne
  | reset =>
    simp only [step, Option.some.injEq] at hs
    rw [← hs] at ha; exact ha
  | pause =>
    simp only [step, Option.some.injEq] at hs
    rw [← hs] at ha
    have hl : alarm (ISR_INT1 st) = false := bitIsSet_clear_PD0 _
    rw [hl] at ha
    exact absurd ha (by decide)
  | resume =>
    simp only [step, Option.some.injEq] at hs
    rw [← hs] at ha; exact ha
  | modePoll pins =>
    simp only [step, Option.map_eq_some'] at hs
    obtain ⟨r, hr, hfst⟩ := hs
    have h := MODE_preserves (fun x => alarm x = alarm st)
      (fun x hx => (toggleMode_alarm x).trans hx) st pins r rfl hr
    rw [← hfst] at ha
    rw [← h]; exact ha
  | adjustPoll pins =>
    simp only [step, Option.map_eq_some'] at hs
    obtain ⟨r, hr, hfst⟩ := hs
    have h := ADJUST_TIME_preserves (fun x => alarm x = alarm st)
      (fun _ hx => hx) (fun _ hx => hx) (fun _ hx => hx) (fun _ hx => hx) (fun _ hx => hx)
      (fun _ hx => hx) st pins r rfl hr
    rw [← hfst] at ha
    rw [← h]; exact ha

/-- C8, as amended: the alarm output is low at the start of the main loop; in
every reachable state, if the alarm output is high right after a timer tick
then the mode is count-down and the time is 00:00:00; and no event other than
a tick raises the alarm output (if it is high after a reset, pause, resume or a
pass of `MODE` or `ADJUST_TIME`, it was high before). -/
theorem alarm_raised_only_by_tick_at_zero :
    alarm initState = false ∧
    (∀ st : State, Reachable st → alarm (ISR_TIMER1_COMPA st) = true →
      (ISR_TIMER1_COMPA st).mode = 0 ∧ time (ISR_TIMER1_COMPA st) = (0, 0, 0)) ∧
    (∀ (st : State) (e : Event) (st' : State), e ≠ Event.tick → step st e = some st' →
      alarm st' = true → alarm st = true) := by
  refine ⟨by decide, ?_, step_alarm_of_not_tick⟩
  intro st hr ha
  have hm := reachable_mode_01 st hr
  unfold ISR_TIMER1_COMPA at ha ⊢
  split_ifs at ha ⊢ with h1
  · rw [count_up_alarm] at ha
    exact absurd ha (by decide)
  · have hm0 : st.mode = 0 := by
      rcases hm with h | h
      · exact h
      · exact absurd h h1
    by_cases hz : st.s = 0 ∧ st.m = 0 ∧ st.h = 0
    · exact ⟨by rw [count_down_mode]; exact hm0,
        (count_down_time_of_zero st ((time_eq_zero st).2 hz)).1⟩
    · rw [count_down_alarm_of_nonzero st hz] at ha
      exact absurd ha (by decide)

/-- Witness for C8 as amended: the tick taken in count-down mode at 00:00:00
raises the alarm, and the state after it is in count-down mode at 00:00:00;
the alarm output that is high after the following mode toggle was high before
it. -/
theorem alarm_raised_only_by_tick_at_zero_witness :
    Reachable (toggleMode initState) ∧
    alarm (ISR_TIMER1_COMPA (toggleMode initState)) = true ∧
    ((ISR_TIMER1_COMPA (toggleMode initState)).mode = 0 ∧
      time (ISR_TIMER1_COMPA (toggleMode initState)) = (0, 0, 0)) ∧
    alarm (ISR_TIMER1_COMPA (toggleMode initState)) = true :=
  have hr : Reachable (toggleMode initState) := ⟨[.modePoll modePress], by decide⟩
  ⟨hr, by decide,
    alarm_raised_only_by_tick_at_zero.2.1 (toggleMode initState) hr (by decide),
    alarm_raised_only_by_tick_at_zero.2.2 (ISR_TIMER1_COMPA (toggleMode initState))
      (.modePoll modePress) toggledAfterAlarm (by decide) (by decide) (by decide)⟩

/-- C8 as stated fails: after a mode toggle, one tick (taken while the timer is
running) and another mode toggle, the machine is in count-up mode with the
alarm output asserted. -/
theorem alarm_function_of_mode_counterexample :
    running (toggleMode initState) = true ∧
    run initState alarmThenToggle = some toggledAfterAlarm ∧
    Reachable toggledAfterAlarm ∧
    alarm toggledAfterAlarm = true ∧
    ¬ (toggledAfterAlarm.mode = 0 ∧ time toggledAfterAlarm = (0, 0, 0)) :=
  ⟨by decide, by decide, ⟨alarmThenToggle, by decide⟩, by decide, by decide⟩

/-- C9: the reset handler sets s, m and h to 0 and leaves `TCCR1B` (the run
state), `mode` and every other register as they were; in particular it turns a
paused 12:34:56 into a paused 00:00:00. -/
theorem reset_zeroes_time_only (st : State) :
    (ISR_INT0 st).s = 0 ∧ (ISR_INT0 st).m = 0 ∧ (ISR_INT0 st).h = 0 ∧
    (ISR_INT0 st).TCCR1B = st.TCCR1B ∧ (ISR_INT0 st).mode = st.mode ∧
    (ISR_INT0 st).PORTD = st.PORTD ∧
    (ISR_INT0 st).TCCR1A = st.TCCR1A ∧ (ISR_INT0 st).TIMSK = st.TIMSK ∧
    (ISR_INT0 st).OCR1A = st.OCR1A ∧ (ISR_INT0 st).MCUCR = st.MCUCR ∧
    (ISR_INT0 st).MCUCSR = st.MCUCSR ∧ (ISR_INT0 st).GICR = st.GICR ∧
    (ISR_INT0 st).DDRA = st.DDRA ∧ (ISR_INT0 st).PORTA = st.PORTA ∧
    (ISR_INT0 st).DDRB = st.DDRB ∧ (ISR_INT0 st).PORTB = st.PORTB ∧
    (ISR_INT0 st).DDRC = st.DDRC ∧ (ISR_INT0 st).PORTC = st.PORTC ∧
    (ISR_INT0 st).DDRD = st.DDRD ∧
    running (ISR_INT0 st) = running st ∧ paused (ISR_INT0 st) = paused st ∧
    alarm (ISR_INT0 st) = alarm st ∧
    (paused (pausedAt 12 34 56) = true ∧
      time (ISR_INT0 (pausedAt 12 34 56)) = (0, 0, 0) ∧
      paused (ISR_INT0 (pausedAt 12 34 56)) = true) :=
  ⟨rfl, rfl, rfl, rfl, rfl, rfl, rfl, rfl, rfl, rfl, rfl, rfl, rfl, rfl, rfl, rfl, rfl, rfl,
    rfl, rfl, rfl, rfl, by decide⟩

/-- C10: while the timer is running (`CS12` and `CS10` both set in `TCCR1B`),
`ADJUST_TIME` returns without reading `PINB` and leaves the whole state
unchanged, whatever the samples on the inputs are. -/
theorem ADJUST_TIME_ignored_while_running (st : State) (pins : List Nat)
    (hrun : running st = true) : ADJUST_TIME st pins = some (st, pins) := by
  unfold running at hrun
  simp only [Bool.and_eq_true] at hrun
  unfold ADJUST_TIME
  rw [hrun.1, hrun.2]
  rfl

/-- Witness for C10: with the timer running at the start of the main loop, a
pass of `ADJUST_TIME` over a held hours-up button changes nothing, although the
same samples change the hours once the timer has been paused. -/
theorem ADJUST_TIME_ignored_while_running_witness :
    running initState = true ∧
    ADJUST_TIME initState hoursUpPress = some (initState, hoursUpPress) ∧
    ADJUST_TIME (ISR_INT1 initState) hoursUpPress = some (hoursUp (ISR_INT1 initState), []) :=
  ⟨by decide, ADJUST_TIME_ignored_while_running initState hoursUpPress (by decide),
    by decide⟩

/-! ## Single button blocks -/

theorem debounced_idle (bit : Nat) (act : State → State) (st : State) (p : Nat)
    (rest : List Nat) (h : pressed bit p = false) :
    debounced bit act st (p :: rest) = some (st, rest) := by
  simp [debounced, h]

theorem debounced_transient (bit : Nat) (act : State → State) (st : State) (p0 p1 : Nat)
    (rest : List Nat) (h0 : pressed bit p0 = true) (h1 : pressed bit p1 = false) :
    debounced bit act st (p0 :: p1 :: rest) = some (st, rest) := by
  simp [debounced, h0, h1]

theorem debounced_press (bit : Nat) (act : State → State) (st : State) (x : Press)
    (rest : List Nat) (hx : x.confirmed bit) :
    debounced bit act st (x.samples rest) = some (act st, rest) :=
  debounced_confirmed bit act st x.first x.second x.held x.release rest hx.1 hx.2.1 hx.2.2.1
    hx.2.2.2

theorem waitRelease_all_held (bit : Nat) (held : List Nat)
    (hheld : ∀ p ∈ held, pressed bit p = true) : waitRelease bit held = none := by
  induction held with
  | nil => rfl
  | cons p ps ih =>
    have hp : pressed bit p = true := hheld p (List.mem_cons_self p ps)
    have hps : ∀ q ∈ ps, pressed bit q = true := fun q hq =>
      hheld q (List.mem_cons_of_mem p hq)
    simp [waitRelease, hp, ih hps]

theorem debounced_still_held (bit : Nat) (act : State → State) (st : State) (p0 p1 : Nat)
    (held : List Nat) (h0 : pressed bit p0 = true) (h1 : pressed bit p1 = true)
    (hheld : ∀ p ∈ held, pressed bit p = true) :
    debounced bit act st (p0 :: p1 :: held) = none := by
  simp [debounced, h0, h1, waitRelease_all_held bit held hheld]

theorem noAdjustPressed_each (p : Nat) (h : noAdjustPressed p = true) :
    pressed PB0 p = false ∧ pressed PB1 p = false ∧ pressed PB3 p = false ∧
    pressed PB4 p = false ∧ pressed PB5 p = false ∧ pressed PB6 p = false := by
  unfold noAdjustPressed at h
  simp only [Bool.and_eq_true, Bool.not_eq_true'] at h
  tauto

theorem ADJUST_TIME_of_paused (st : State) (pins : List Nat) (hp : paused st = true) :
    ADJUST_TIME st pins =
      (debounced PB0 hoursDown st pins).bind fun r0 =>
      (debounced PB1 hoursUp r0.1 r0.2).bind fun r1 =>
      (debounced PB3 minutesDown r1.1 r1.2).bind fun r3 =>
      (debounced PB4 minutesUp r3.1 r3.2).bind fun r4 =>
      (debounced PB5 secondsDown r4.1 r4.2).bind fun r5 =>
      debounced PB6 secondsUp r5.1 r5.2 := by
  unfold paused at hp
  unfold ADJUST_TIME
  rw [if_pos hp]

/-! ## One pass of `ADJUST_TIME` with a single button pressed -/

theorem ADJUST_TIME_press_PB0 (st : State) (hp : paused st = true) (x : Press)
    (q1 q3 q4 q5 q6 : Nat) (rest : List Nat) (hx : x.confirmed PB0)
    (h1 : noAdjustPressed q1 = true) (h3 : noAdjustPressed q3 = true)
    (h4 : noAdjustPressed q4 = true) (h5 : noAdjustPressed q5 = true)
    (h6 : noAdjustPressed q6 = true) :
    ADJUST_TIME st (x.samples (q1 :: q3 :: q4 :: q5 :: q6 :: rest)) =
      some (hoursDown st, rest) := by
  rw [ADJUST_TIME_of_paused st _ hp, debounced_press PB0 hoursDown st x _ hx]
  simp only [Option.some_bind]
  rw [debounced_idle PB1 _ _ q1 _ (noAdjustPressed_each q1 h1).2.1]
  simp only [Option.some_bind]
  rw [debounced_idle PB3 _ _ q3 _ (noAdjustPressed_each q3 h3).2.2.1]
  simp only [Option.some_bind]
  rw [debounced_idle PB4 _ _ q4 _ (noAdjustPressed_each q4 h4).2.2.2.1]
  simp only [Option.some_bind]
  rw [debounced_idle PB5 _ _ q5 _ (noAdjustPressed_each q5 h5).2.2.2.2.1]
  simp only [Option.some_bind]
  rw [debounced_idle PB6 _ _ q6 _ (noAdjustPressed_each q6 h6).2.2.2.2.2]

theorem ADJUST_TIME_press_PB1 (st : State) (hp : paused st = true) (x : Press)
    (q0 q3 q4 q5 q6 : Nat) (rest : List Nat) (hx : x.confirmed PB1)
    (h0 : noAdjustPressed q0 = true) (h3 : noAdjustPressed q3 = true)
    (h4 : noAdjustPressed q4 = true) (h5 : noAdjustPressed q5 = true)
    (h6 : noAdjustPressed q6 = true) :
    ADJUST_TIME st (q0 :: x.samples (q3 :: q4 :: q5 :: q6 :: rest)) =
      some (hoursUp st, rest) := by
  rw [ADJUST_TIME_of_paused st _ hp]
  rw [debounced_idle PB0 _ _ q0 _ (noAdjustPressed_each q0 h0).1]
  simp only [Option.some_bind]
  rw [debounced_press PB1 hoursUp _ x _ hx]
  simp only [Option.some_bind]
  rw [debounced_idle PB3 _ _ q3 _ (noAdjustPressed_each q3 h3).2.2.1]
  simp only [Option.some_bind]
  rw [debounced_idle PB4 _ _ q4 _ (noAdjustPressed_each q4 h4).2.2.2.1]
  simp only [Option.some_bind]
  rw [debounced_idle PB5 _ _ q5 _ (noAdjustPressed_each q5 h5).2.2.2.2.1]
  simp only [Option.some_bind]
  rw [debounced_idle PB6 _ _ q6 _ (noAdjustPressed_each q6 h6).2.2.2.2.2]

theorem ADJUST_TIME_press_PB3 (st : State) (hp : paused st = true) (x : Press)
    (q0 q1 q4 q5 q6 : Nat) (rest : List Nat) (hx : x.confirmed PB3)
    (h0 : noAdjustPressed q0 = true) (h1 : noAdjustPressed q1 = true)
    (h4 : noAdjustPressed q4 = true) (h5 : noAdjustPressed q5 = true)
    (h6 : noAdjustPressed q6 = true) :
    ADJUST_TIME st (q0 :: q1 :: x.samples (q4 :: q5 :: q6 :: rest)) =
      some (minutesDown st, rest) := by
  rw [ADJUST_TIME_of_paused st _ hp]
  rw [debounced_idle PB0 _ _ q0 _ (noAdjustPressed_each q0 h0).1]
  simp only [Option.some_bind]
  rw [debounced_idle PB1 _ _ q1 _ (noAdjustPressed_each q1 h1).2.1]
  simp only [Option.some_bind]
  rw [debounced_press PB3 minutesDown _ x _ hx]
  simp only [Option.some_bind]
  rw [debounced_idle PB4 _ _ q4 _ (noAdjustPressed_each q4 h4).2.2.2.1]
  simp only [Option.some_bind]
  rw [debounced_idle PB5 _ _ q5 _ (noAdjustPressed_each q5 h5).2.2.2.2.1]
  simp only [Option.some_bind]
  rw [debounced_idle PB6 _ _ q6 _ (noAdjustPressed_each q6 h6).2.2.2.2.2]

theorem ADJUST_TIME_press_PB4 (st : State) (hp : paused st = true) (x : Press)
    (q0 q1 q3 q5 q6 : Nat) (rest : List Nat) (hx : x.confirmed PB4)
    (h0 : noAdjustPressed q0 = true) (h1 : noAdjustPressed q1 = true)
    (h3 : noAdjustPressed q3 = true) (h5 : noAdjustPressed q5 = true)
    (h6 : noAdjustPressed q6 = true) :
    ADJUST_TIME st (q0 :: q1 :: q3 :: x.samples (q5 :: q6 :: rest)) =
      some (minutesUp st, rest) := by
  rw [ADJUST_TIME_of_paused st _ hp]
  rw [debounced_idle PB0 _ _ q0 _ (noAdjustPressed_each q0 h0).1]
  simp only [Option.some_bind]
  rw [debounced_idle PB1 _ _ q1 _ (noAdjustPressed_each q1 h1).2.1]
  simp only [Option.some_bind]
  rw [debounced_idle PB3 _ _ q3 _ (noAdjustPressed_each q3 h3).2.2.1]
  simp only [Option.some_bind]
  rw [debounced_press PB4 minutesUp _ x _ hx]
  simp only [Option.some_bind]
  rw [debounced_idle PB5 _ _ q5 _ (noAdjustPressed_each q5 h5).2.2.2.2.1]
  simp only [Option.some_bind]
  rw [debounced_idle PB6 _ _ q6 _ (noAdjustPressed_each q6 h6).2.2.2.2.2]

theorem ADJUST_TIME_press_PB5 (st : State) (hp : paused st = true) (x : Press)
    (q0 q1 q3 q4 q6 : Nat) (rest : List Nat) (hx : x.confirmed PB5)
    (h0 : noAdjustPressed q0 = true) (h1 : noAdjustPressed q1 = true)
    (h3 : noAdjustPressed q3 = true) (h4 : noAdjustPressed q4 = true)
    (h6 : noAdjustPressed q6 = true) :
    ADJUST_TIME st (q0 :: q1 :: q3 :: q4 :: x.samples (q6 :: rest)) =
      some (secondsDown st, rest) := by
  rw [ADJUST_TIME_of_paused st _ hp]
  rw [debounced_idle PB0 _ _ q0 _ (noAdjustPressed_each q0 h0).1]
  simp only [Option.some_bind]
  rw [debounced_idle PB1 _ _ q1 _ (noAdjustPressed_each q1 h1).2.1]
  simp only [Option.some_bind]
  rw [debounced_idle PB3 _ _ q3 _ (noAdjustPressed_each q3 h3).2.2.1]
  simp only [Option.some_bind]
  rw [debounced_idle PB4 _ _ q4 _ (noAdjustPressed_each q4 h4).2.2.2.1]
  simp only [Option.some_bind]
  rw [debounced_press PB5 secondsDown _ x _ hx]
  simp only [Option.some_bind]
  rw [debounced_idle PB6 _ _ q6 _ (noAdjustPressed_each q6 h6).2.2.2.2.2]

theorem ADJUST_TIME_press_PB6 (st : State) (hp : paused st = true) (x : Press)
    (q0 q1 q3 q4 q5 : Nat) (rest : List Nat) (hx : x.confirmed PB6)
    (h0 : noAdjustPressed q0 = true) (h1 : noAdjustPressed q1 = true)
    (h3 : noAdjustPressed q3 = true) (h4 : noAdjustPressed q4 = true)
    (h5 : noAdjustPressed q5 = true) :
    ADJUST_TIME st (q0 :: q1 :: q3 :: q4 :: q5 :: x.samples rest) =
      some (secondsUp st, rest) := by
  rw [ADJUST_TIME_of_paused st _ hp]
  rw [debounced_idle PB0 _ _ q0 _ (noAdjustPressed_each q0 h0).1]
  simp only [Option.some_bind]
  rw [debounced_idle PB1 _ _ q1 _ (noAdjustPressed_each q1 h1).2.1]
  simp only [Option.some_bind]
  rw [debounced_idle PB3 _ _ q3 _ (noAdjustPressed_each q3 h3).2.2.1]
  simp only [Option.some_bind]
  rw [debounced_idle PB4 _ _ q4 _ (noAdjustPressed_each q4 h4).2.2.2.1]
  simp only [Option.some_bind]
  rw [debounced_idle PB5 _ _ q5 _ (noAdjustPressed_each q5 h5).2.2.2.2.1]
  simp only [Option.some_bind]
  rw [debounced_press PB6 secondsUp _ x _ hx]

/-! ## The six adjustment assignments as arithmetic modulo the bound -/

theorem hoursDown_fields (st : State) (hb : InBounds st) :
    ((hoursDown st).h : Int) = ((st.h : Int) - 1) % 24 ∧
    (hoursDown st).m = st.m ∧ (hoursDown st).s = st.s := by
  obtain ⟨hs, hm, hh⟩ := hb
  refine ⟨?_, rfl, rfl⟩
  unfold hoursDown
  dsimp only
  split_ifs <;> omega

theorem hoursUp_fields (st : State) :
    ((hoursUp st).h : Int) = ((st.h : Int) + 1) % 24 ∧
    (hoursUp st).m = st.m ∧ (hoursUp st).s = st.s := by
  refine ⟨?_, rfl, rfl⟩
  unfold hoursUp
  dsimp only
  omega

theorem minutesDown_fields (st : State) (hb : InBounds st) :
    ((minutesDown st).m : Int) = ((st.m : Int) - 1) % 60 ∧
    (minutesDown st).h = st.h ∧ (minutesDown st).s = st.s := by
  obtain ⟨hs, hm, hh⟩ := hb
  refine ⟨?_, rfl, rfl⟩
  unfold minutesDown
  dsimp only
  split_ifs <;> omega

theorem minutesUp_fields (st : State) :
    ((minutesUp st).m : Int) = ((st.m : Int) + 1) % 60 ∧
    (minutesUp st).h = st.h ∧ (minutesUp st).s = st.s := by
  refine ⟨?_, rfl, rfl⟩
  unfold minutesUp
  dsimp only
  omega

theorem secondsDown_fields (st : State) (hb : InBounds st) :
    ((secondsDown st).s : Int) = ((st.s : Int) - 1) % 60 ∧
    (secondsDown st).h = st.h ∧ (secondsDown st).m = st.m := by
  obtain ⟨hs, hm, hh⟩ := hb
  refine ⟨?_, rfl, rfl⟩
  unfold secondsDown
  dsimp only
  split_ifs <;> omega

theorem secondsUp_fields (st : State) :
    ((secondsUp st).s : Int) = ((st.s : Int) + 1) % 60 ∧
    (secondsUp st).h = st.h ∧ (secondsUp st).m = st.m := by
  refine ⟨?_, rfl, rfl⟩
  unfold secondsUp
  dsimp only
  omega

/-- C11: in a paused state with in-bounds s, m, h, one pass of `ADJUST_TIME`
in which exactly one adjustment button is confirmed-pressed (the samples read
by the other five blocks show no adjustment button pressed) returns with the
targeted field set to (old - 1) mod B or (old + 1) mod B, B = 24 for hours on
`PB0`/`PB1` and B = 60 for minutes on `PB3`/`PB4` and seconds on `PB5`/`PB6`,
and with the other two fields unchanged. -/
theorem ADJUST_TIME_single_press_one_field (st : State) (hp : paused st = true)
    (hb : InBounds st) (x : Press) (q0 q1 q3 q4 q5 q6 : Nat) (rest : List Nat)
    (h0 : noAdjustPressed q0 = true) (h1 : noAdjustPressed q1 = true)
    (h3 : noAdjustPressed q3 = true) (h4 : noAdjustPressed q4 = true)
    (h5 : noAdjustPressed q5 = true) (h6 : noAdjustPressed q6 = true) :
    (x.confirmed PB0 →
      ∃ st', ADJUST_TIME st (x.samples (q1 :: q3 :: q4 :: q5 :: q6 :: rest)) = some (st', rest) ∧
        (st'.h : Int) = ((st.h : Int) - 1) % 24 ∧ st'.m = st.m ∧ st'.s = st.s) ∧
    (x.confirmed PB1 →
      ∃ st', ADJUST_TIME st (q0 :: x.samples (q3 :: q4 :: q5 :: q6 :: rest)) = some (st', rest) ∧
        (st'.h : Int) = ((st.h : Int) + 1) % 24 ∧ st'.m = st.m ∧ st'.s = st.s) ∧
    (x.confirmed PB3 →
      ∃ st', ADJUST_TIME st (q0 :: q1 :: x.samples (q4 :: q5 :: q6 :: rest)) = some (st', rest) ∧
        (st'.m : Int) = ((st.m : Int) - 1) % 60 ∧ st'.h = st.h ∧ st'.s = st.s) ∧
    (x.confirmed PB4 →
      ∃ st', ADJUST_TIME st (q0 :: q1 :: q3 :: x.samples (q5 :: q6 :: rest)) = some (st', rest) ∧
        (st'.m : Int) = ((st.m : Int) + 1) % 60 ∧ st'.h = st.h ∧ st'.s = st.s) ∧
    (x.confirmed PB5 →
      ∃ st', ADJUST_TIME st (q0 :: q1 :: q3 :: q4 :: x.samples (q6 :: rest)) = some (st', rest) ∧
        (st'.s : Int) = ((st.s : Int) - 1) % 60 ∧ st'.h = st.h ∧ st'.m = st.m) ∧
    (x.confirmed PB6 →
      ∃ st', ADJUST_TIME st (q0 :: q1 :: q3 :: q4 :: q5 :: x.samples rest) = some (st', rest) ∧
        (st'.s : Int) = ((st.s : Int) + 1) % 60 ∧ st'.h = st.h ∧ st'.m = st.m) :=
  ⟨fun hx => ⟨hoursDown st, ADJUST_TIME_press_PB0 st hp x q1 q3 q4 q5 q6 rest hx h1 h3 h4 h5 h6,
      hoursDown_fields st hb⟩,
   fun hx => ⟨hoursUp st, ADJUST_TIME_press_PB1 st hp x q0 q3 q4 q5 q6 rest hx h0 h3 h4 h5 h6,
      hoursUp_fields st⟩,
   fun hx => ⟨minutesDown st,
      ADJUST_TIME_press_PB3 st hp x q0 q1 q4 q5 q6 rest hx h0 h1 h4 h5 h6,
      minutesDown_fields st hb⟩,
   fun hx => ⟨minutesUp st, ADJUST_TIME_press_PB4 st hp x q0 q1 q3 q5 q6 rest hx h0 h1 h3 h5 h6,
      minutesUp_fields st⟩,
   fun hx => ⟨secondsDown st,
      ADJUST_TIME_press_PB5 st hp x q0 q1 q3 q4 q6 rest hx h0 h1 h3 h4 h6,
      secondsDown_fields st hb⟩,
   fun hx => ⟨secondsUp st, ADJUST_TIME_press_PB6 st hp x q0 q1 q3 q4 q5 rest hx h0 h1 h3 h4 h5,
      secondsUp_fields st⟩⟩

/-- Witness for C11, paused at 00:59:30: a confirmed hours-down press gives
23:59:30 and a confirmed minutes-up press gives 00:00:30, the hours staying at
0. -/
theorem ADJUST_TIME_single_press_one_field_witness :
    (∃ st', ADJUST_TIME (pausedAt 0 59 30)
        ((pressAll 2).samples [0xFF, 0xFF, 0xFF, 0xFF, 0xFF]) = some (st', []) ∧
      (st'.h : Int) = (((pausedAt 0 59 30).h : Int) - 1) % 24 ∧
      st'.m = (pausedAt 0 59 30).m ∧ st'.s = (pausedAt 0 59 30).s) ∧
    (∃ st', ADJUST_TIME (pausedAt 0 59 30)
        (0xFF :: 0xFF :: 0xFF :: (pressAll 2).samples [0xFF, 0xFF]) = some (st', []) ∧
      (st'.m : Int) = (((pausedAt 0 59 30).m : Int) + 1) % 60 ∧
      st'.h = (pausedAt 0 59 30).h ∧ st'.s = (pausedAt 0 59 30).s) ∧
    (ADJUST_TIME (pausedAt 0 59 30) ((pressAll 2).samples [0xFF, 0xFF, 0xFF, 0xFF, 0xFF])).map
        (fun r => time r.1) = some (23, 59, 30) ∧
    (ADJUST_TIME (pausedAt 0 59 30)
        (0xFF :: 0xFF :: 0xFF :: (pressAll 2).samples [0xFF, 0xFF])).map
        (fun r => time r.1) = some (0, 0, 30) :=
  have h := ADJUST_TIME_single_press_one_field (pausedAt 0 59 30) (by decide) (by decide)
    (pressAll 2) 0xFF 0xFF 0xFF 0xFF 0xFF 0xFF [] (by decide) (by decide) (by decide)
    (by decide) (by decide) (by decide)
  ⟨h.1 (by decide), h.2.2.2.1 (by decide), by decide, by decide⟩

/-! ## Ticks -/

theorem ISR_TIMER1_COMPA_of_countUp (st : State) (hmode : st.mode = 1) :
    ISR_TIMER1_COMPA st = count_up st := by
  unfold ISR_TIMER1_COMPA
  rw [if_pos hmode]

theorem count_down_alarm_iff (st : State) :
    alarm (count_down st) = true ↔ time st = (0, 0, 0) := by
  constructor
  · intro ha
    by_contra hne
    have hnz : ¬ (st.s = 0 ∧ st.m = 0 ∧ st.h = 0) := fun hz => hne ((time_eq_zero st).2 hz)
    rw [count_down_alarm_of_nonzero st hnz] at ha
    exact absurd ha (by decide)
  · intro hz
    exact (count_down_time_of_zero st hz).2.1

/-- C12: the timer ISR is `count_up` when `mode` is 1 and `count_down`
otherwise; a count-up tick leaves the alarm output low and, on an in-bounds
time, adds one second (modulo a day); a count-down tick at a non-zero time
leaves the alarm output low and, on an in-bounds time, takes one second off;
after any tick the alarm output is high exactly when `mode` was not 1 and the
time before the tick was 00:00:00. -/
theorem tick_dispatch_and_alarm (st : State) :
    (st.mode = 1 → ISR_TIMER1_COMPA st = count_up st) ∧
    (st.mode ≠ 1 → ISR_TIMER1_COMPA st = count_down st) ∧
    (st.mode = 1 →
      alarm (ISR_TIMER1_COMPA st) = false ∧
      (InBounds st →
        totalSeconds (ISR_TIMER1_COMPA st) = (totalSeconds st + 1) % 86400 ∧
        InBounds (ISR_TIMER1_COMPA st))) ∧
    (st.mode ≠ 1 → time st ≠ (0, 0, 0) →
      alarm (ISR_TIMER1_COMPA st) = false ∧
      (InBounds st →
        totalSeconds (ISR_TIMER1_COMPA st) + 1 = totalSeconds st ∧
        InBounds (ISR_TIMER1_COMPA st))) ∧
    (alarm (ISR_TIMER1_COMPA st) = true ↔ st.mode ≠ 1 ∧ time st = (0, 0, 0)) := by
  refine ⟨ISR_TIMER1_COMPA_of_countUp st, ISR_TIMER1_COMPA_of_countDown st, ?_, ?_, ?_⟩
  · intro hm
    rw [ISR_TIMER1_COMPA_of_countUp st hm]
    exact ⟨count_up_alarm st, fun hb => ⟨count_up_totalSeconds st hb, count_up_inBounds st hb⟩⟩
  · intro hm hne
    rw [ISR_TIMER1_COMPA_of_countDown st hm]
    have hnz : ¬ (st.s = 0 ∧ st.m = 0 ∧ st.h = 0) := fun hz => hne ((time_eq_zero st).2 hz)
    refine ⟨count_down_alarm_of_nonzero st hnz, fun hb => ⟨?_, count_down_inBounds st hb⟩⟩
    have ht := count_down_totalSeconds st hb
    have hpos : totalSeconds st ≠ 0 := fun h => hnz ((totalSeconds_eq_zero st).1 h)
    omega
  · by_cases hm : st.mode = 1
    · rw [ISR_TIMER1_COMPA_of_countUp st hm, count_up_alarm]
      constructor
      · intro h; exact absurd h (by decide)
      · intro h; exact absurd hm h.1
    · rw [ISR_TIMER1_COMPA_of_countDown st hm, count_down_alarm_iff]
      exact ⟨fun h => ⟨hm, h⟩, fun h => h.2⟩

/-- Witness for C12: a count-up tick from 00:00:00 (alarm low, one second
added) and count-down ticks from 00:00:10 (alarm low, one second taken off)
and from 00:00:00 (alarm high). -/
theorem tick_dispatch_and_alarm_witness :
    (alarm (ISR_TIMER1_COMPA initState) = false ∧
      (InBounds initState →
        totalSeconds (ISR_TIMER1_COMPA initState) = (totalSeconds initState + 1) % 86400 ∧
        InBounds (ISR_TIMER1_COMPA initState))) ∧
    (alarm (ISR_TIMER1_COMPA (countingDownFrom 0 0 10)) = false ∧
      (InBounds (countingDownFrom 0 0 10) →
        totalSeconds (ISR_TIMER1_COMPA (countingDownFrom 0 0 10)) + 1 =
          totalSeconds (countingDownFrom 0 0 10) ∧
        InBounds (ISR_TIMER1_COMPA (countingDownFrom 0 0 10)))) ∧
    alarm (ISR_TIMER1_COMPA (countingDownFrom 0 0 0)) = true :=
  ⟨(tick_dispatch_and_alarm initState).2.2.1 (by decide),
   (tick_dispatch_and_alarm (countingDownFrom 0 0 10)).2.2.2.1 (by decide) (by decide),
   (tick_dispatch_and_alarm (countingDownFrom 0 0 0)).2.2.2.2.2 ⟨by decide, by decide⟩⟩

/-- C18: with T = 3600*h + 60*m + s, on every in-bounds time `count_up` gives
(T + 1) mod 86400 and `count_down` gives T - 1 when T > 0 and 0 when T = 0. -/
theorem tick_functions_on_total_seconds (st : State) (hb : InBounds st) :
    totalSeconds (count_up st) = (totalSeconds st + 1) % 86400 ∧
    (totalSeconds st > 0 → totalSeconds (count_down st) = totalSeconds st - 1) ∧
    (totalSeconds st = 0 → totalSeconds (count_down st) = 0) := by
  have hd := count_down_totalSeconds st hb
  refine ⟨count_up_totalSeconds st hb, fun _ => hd, fun h0 => ?_⟩
  rw [hd, h0]

/-- Witness for C18, at 23:59:59 (count-up wraps to 0 seconds, count-down
gives 86398) and at 00:00:00 (count-down stays at 0). -/
theorem tick_functions_on_total_seconds_witness :
    totalSeconds (pausedAt 23 59 59) = 86399 ∧
    totalSeconds (count_up (pausedAt 23 59 59)) = (totalSeconds (pausedAt 23 59 59) + 1) % 86400 ∧
    totalSeconds (count_down (pausedAt 23 59 59)) = totalSeconds (pausedAt 23 59 59) - 1 ∧
    totalSeconds (count_down (pausedAt 0 0 0)) = 0 :=
  ⟨by decide, (tick_functions_on_total_seconds (pausedAt 23 59 59) (by decide)).1,
    (tick_functions_on_total_seconds (pausedAt 23 59 59) (by decide)).2.1 (by decide),
    (tick_functions_on_total_seconds (pausedAt 0 0 0) (by decide)).2.2 (by decide)⟩

/-! ## Pause and resume -/

theorem bitIsSet_and_of_mask (x mask bit : Nat) (hmask : mask.testBit bit = true) :
    bitIsSet (x &&& mask) bit = bitIsSet x bit := by
  rw [bitIsSet_eq_testBit, bitIsSet_eq_testBit, Nat.testBit_and, hmask, Bool.and_true]

theorem bitIsSet_or_of_mask (x mask bit : Nat) (hmask : mask.testBit bit = false) :
    bitIsSet (x ||| mask) bit = bitIsSet x bit := by
  rw [bitIsSet_eq_testBit, bitIsSet_eq_testBit, Nat.testBit_or, hmask, Bool.or_false]

theorem bitIsSet_or_of_mask_set (x mask bit : Nat) (hmask : mask.testBit bit = true) :
    bitIsSet (x ||| mask) bit = true := by
  rw [bitIsSet_eq_testBit, Nat.testBit_or, hmask, Bool.or_true]

theorem bitIsSet_xor_of_mask (x mask bit : Nat) (hmask : mask.testBit bit = false) :
    bitIsSet (x ^^^ mask) bit = bitIsSet x bit := by
  rw [bitIsSet_eq_testBit, bitIsSet_eq_testBit, Nat.testBit_xor, hmask, Bool.xor_false]

theorem bitIsSet_xor_of_mask_set (x mask bit : Nat) (hmask : mask.testBit bit = true) :
    bitIsSet (x ^^^ mask) bit = !bitIsSet x bit := by
  rw [bitIsSet_eq_testBit, bitIsSet_eq_testBit, Nat.testBit_xor, hmask, Bool.xor_true]

theorem pauseMask_PORTD (bit : Nat) (hlt : bit < 8) (hne : bit ≠ PD0) :
    (not8 (1 <<< PD0)).testBit bit = true := by
  unfold PD0 at hne
  interval_cases bit <;> first | decide | exact absurd rfl hne

theorem pauseMask_TCCR1B (bit : Nat) (hlt : bit < 8) (h12 : bit ≠ CS12) (h10 : bit ≠ CS10) :
    (not8 (1 <<< CS12) &&& not8 (1 <<< CS10)).testBit bit = true := by
  unfold CS12 at h12
  unfold CS10 at h10
  interval_cases bit <;> first | decide | exact absurd rfl h12 | exact absurd rfl h10

theorem resumeMask_TCCR1B (bit : Nat) (h12 : bit ≠ CS12) (h10 : bit ≠ CS10) :
    ((1 <<< CS12) ||| (1 <<< CS10)).testBit bit = false := by
  unfold CS12 at h12
  unfold CS10 at h10
  have h5 : ((1 <<< CS12) ||| (1 <<< CS10) : Nat) = 5 := by decide
  rw [h5]
  by_cases hlt : bit < 3
  · interval_cases bit <;> first | decide | exact absurd rfl h12 | exact absurd rfl h10
  · apply Nat.testBit_lt_two_pow
    calc 5 < 2 ^ 3 := by decide
      _ ≤ 2 ^ bit := Nat.pow_le_pow_right (by decide) (by omega)

/-- C13: the pause handler clears `CS12`, `CS10` and the alarm output `PD0` and
leaves s, m, h, `mode`, the other bits of `TCCR1B` and `PORTD` and every other
register unchanged; the resume handler sets `CS12` and `CS10` and leaves s, m,
h, `mode`, `PORTD` (the alarm output with it), the other bits of `TCCR1B` and
every other register unchanged. -/
theorem pause_resume_frame (st : State) :
    (bitIsSet (ISR_INT1 st).TCCR1B CS12 = false ∧ bitIsSet (ISR_INT1 st).TCCR1B CS10 = false ∧
      paused (ISR_INT1 st) = true ∧ alarm (ISR_INT1 st) = false ∧
      (ISR_INT1 st).s = st.s ∧ (ISR_INT1 st).m = st.m ∧ (ISR_INT1 st).h = st.h ∧
      (ISR_INT1 st).mode = st.mode ∧
      (∀ bit, bit < 8 → bit ≠ PD0 →
        bitIsSet (ISR_INT1 st).PORTD bit = bitIsSet st.PORTD bit) ∧
      (∀ bit, bit < 8 → bit ≠ CS12 → bit ≠ CS10 →
        bitIsSet (ISR_INT1 st).TCCR1B bit = bitIsSet st.TCCR1B bit) ∧
      { ISR_INT1 st with PORTD := st.PORTD, TCCR1B := st.TCCR1B } = st) ∧
    (bitIsSet (ISR_INT2 st).TCCR1B CS12 = true ∧ bitIsSet (ISR_INT2 st).TCCR1B CS10 = true ∧
      running (ISR_INT2 st) = true ∧ alarm (ISR_INT2 st) = alarm st ∧
      (ISR_INT2 st).s = st.s ∧ (ISR_INT2 st).m = st.m ∧ (ISR_INT2 st).h = st.h ∧
      (ISR_INT2 st).mode = st.mode ∧ (ISR_INT2 st).PORTD = st.PORTD ∧
      (∀ bit, bit ≠ CS12 → bit ≠ CS10 →
        bitIsSet (ISR_INT2 st).TCCR1B bit = bitIsSet st.TCCR1B bit) ∧
      { ISR_INT2 st with TCCR1B := st.TCCR1B } = st) := by
  have p12 : bitIsSet (ISR_INT1 st).TCCR1B CS12 = false := by
    have hmask : (not8 (1 <<< CS12) &&& not8 (1 <<< CS10)).testBit CS12 = false := by decide
    show bitIsSet (st.TCCR1B &&& (not8 (1 <<< CS12) &&& not8 (1 <<< CS10))) CS12 = false
    rw [bitIsSet_eq_testBit, Nat.testBit_and, hmask, Bool.and_false]
  have p10 : bitIsSet (ISR_INT1 st).TCCR1B CS10 = false := by
    have hmask : (not8 (1 <<< CS12) &&& not8 (1 <<< CS10)).testBit CS10 = false := by decide
    show bitIsSet (st.TCCR1B &&& (not8 (1 <<< CS12) &&& not8 (1 <<< CS10))) CS10 = false
    rw [bitIsSet_eq_testBit, Nat.testBit_and, hmask, Bool.and_false]
  have r12 : bitIsSet (ISR_INT2 st).TCCR1B CS12 = true :=
    bitIsSet_or_of_mask_set st.TCCR1B _ CS12 (by decide)
  have r10 : bitIsSet (ISR_INT2 st).TCCR1B CS10 = true :=
    bitIsSet_or_of_mask_set st.TCCR1B _ CS10 (by decide)
  refine ⟨⟨p12, p10, ?_, bitIsSet_clear_PD0 _, rfl, rfl, rfl, rfl, ?_, ?_, rfl⟩,
    ⟨r12, r10, ?_, rfl, rfl, rfl, rfl, rfl, rfl, ?_, rfl⟩⟩
  · unfold paused
    rw [p12, p10]
    rfl
  · intro bit hlt hne
    exact bitIsSet_and_of_mask st.PORTD _ bit (pauseMask_PORTD bit hlt hne)
  · intro bit hlt h12 h10
    exact bitIsSet_and_of_mask st.TCCR1B _ bit (pauseMask_TCCR1B bit hlt h12 h10)
  · unfold running
    rw [r12, r10]
    rfl
  · intro bit h12 h10
    exact bitIsSet_or_of_mask st.TCCR1B _ bit (resumeMask_TCCR1B bit h12 h10)

/-- Witness for C13, on the state in which the alarm sounds at 00:00:00: pause
silences it and keeps the count-down indicator `PD5`; resume leaves the alarm
on and starts the timer. -/
theorem pause_resume_frame_witness :
    alarm alarmedAtZero = true ∧
    alarm (ISR_INT1 alarmedAtZero) = false ∧
    bitIsSet (ISR_INT1 alarmedAtZero).PORTD PD5 = bitIsSet alarmedAtZero.PORTD PD5 ∧
    bitIsSet (ISR_INT1 alarmedAtZero).TCCR1B WGM12 = bitIsSet alarmedAtZero.TCCR1B WGM12 ∧
    running (ISR_INT2 alarmedAtZero) = true ∧
    alarm (ISR_INT2 alarmedAtZero) = alarm alarmedAtZero ∧
    bitIsSet (ISR_INT2 alarmedAtZero).TCCR1B WGM12 = bitIsSet alarmedAtZero.TCCR1B WGM12 :=
  have h := pause_resume_frame alarmedAtZero
  ⟨by decide, h.1.2.2.2.1,
    h.1.2.2.2.2.2.2.2.2.1 PD5 (by decide) (by decide),
    h.1.2.2.2.2.2.2.2.2.2.1 WGM12 (by decide) (by decide) (by decide),
    h.2.2.2.1, h.2.2.2.2.1,
    h.2.2.2.2.2.2.2.2.2.2.1 WGM12 (by decide) (by decide)⟩

/-! ## Idempotence of the three external interrupt handlers -/

/-- C16: the reset, pause and resume handlers are idempotent: applied twice
they give the same state as applied once. -/
theorem handlers_idempotent (st : State) :
    ISR_INT0 (ISR_INT0 st) = ISR_INT0 st ∧
    ISR_INT1 (ISR_INT1 st) = ISR_INT1 st ∧
    ISR_INT2 (ISR_INT2 st) = ISR_INT2 st := by
  refine ⟨rfl, ?_, ?_⟩
  · unfold ISR_INT1
    simp only [Nat.and_assoc, Nat.and_self]
  · unfold ISR_INT2
    simp only [Nat.or_assoc, Nat.or_self]

/-! ## The hours guard of `count_down` -/

/-- C17: for every 8-bit h, whenever `count_down` reaches its minute-borrow
branch the guard `h > 0` holds, `count_down` equals the variant that decrements
h unconditionally there, and the hours after either function are at most the
hours before (no wrap to 255). -/
theorem count_down_hours_guard_redundant (st : State) (h8 : st.h < 256) :
    (¬ (st.s = 0 ∧ st.m = 0 ∧ st.h = 0) → st.s = 0 → st.m = 0 → st.h > 0) ∧
    count_down st = count_down_unguarded st ∧
    (count_down st).h ≤ st.h ∧ (count_down_unguarded st).h ≤ st.h := by
  have hguard : ¬ (st.s = 0 ∧ st.m = 0 ∧ st.h = 0) → st.s = 0 → st.m = 0 → st.h > 0 := by
    intro hnz hs hm
    rcases Nat.eq_zero_or_pos st.h with h0 | hpos
    · exact absurd ⟨hs, hm, h0⟩ hnz
    · exact hpos
  have heq : count_down st = count_down_unguarded st := by
    unfold count_down count_down_unguarded
    by_cases hz : st.s = 0 ∧ st.m = 0 ∧ st.h = 0
    · rw [if_pos hz, if_pos hz]
    · rw [if_neg hz, if_neg hz]
      dsimp only
      by_cases hs : st.s = 0
      · rw [if_pos hs, if_pos hs]
        by_cases hm : st.m = 0
        · have hpos := hguard hz hs hm
          rw [if_pos hm, if_pos hm, if_pos hpos]
          have hh : (st.h + 255) % 256 = st.h - 1 := by omega
          rw [hh]
        · rw [if_neg hm, if_neg hm]
      · rw [if_neg hs, if_neg hs]
  have hle : (count_down st).h ≤ st.h := by
    unfold count_down
    dsimp only
    split_ifs <;> dsimp only <;> omega
  exact ⟨hguard, heq, hle, heq ▸ hle⟩

/-- Witness for C17, at 01:00:00, where the minute-borrow branch is taken. -/
theorem count_down_hours_guard_redundant_witness :
    (pausedAt 1 0 0).h > 0 ∧
    count_down (pausedAt 1 0 0) = count_down_unguarded (pausedAt 1 0 0) ∧
    time (count_down_unguarded (pausedAt 1 0 0)) = (0, 59, 59) :=
  have h := count_down_hours_guard_redundant (pausedAt 1 0 0) (by decide)
  ⟨h.1 (by decide) (by decide) (by decide), h.2.1, by decide⟩

/-! ## One pass of `ADJUST_TIME` with a transient on one button, or with no button pressed -/

theorem ADJUST_TIME_idle (st : State) (hp : paused st = true)
    (q0 q1 q3 q4 q5 q6 : Nat) (rest : List Nat)
    (h0 : noAdjustPressed q0 = true) (h1 : noAdjustPressed q1 = true)
    (h3 : noAdjustPressed q3 = true) (h4 : noAdjustPressed q4 = true)
    (h5 : noAdjustPressed q5 = true) (h6 : noAdjustPressed q6 = true) :
    ADJUST_TIME st (q0 :: q1 :: q3 :: q4 :: q5 :: q6 :: rest) = some (st, rest) := by
  rw [ADJUST_TIME_of_paused st _ hp]
  rw [debounced_idle PB0 _ _ q0 _ (noAdjustPressed_each q0 h0).1]
  simp only [Option.some_bind]
  rw [debounced_idle PB1 _ _ q1 _ (noAdjustPressed_each q1 h1).2.1]
  simp only [Option.some_bind]
  rw [debounced_idle PB3 _ _ q3 _ (noAdjustPressed_each q3 h3).2.2.1]
  simp only [Option.some_bind]
  rw [debounced_idle PB4 _ _ q4 _ (noAdjustPressed_each q4 h4).2.2.2.1]
  simp only [Option.some_bind]
  rw [debounced_idle PB5 _ _ q5 _ (noAdjustPressed_each q5 h5).2.2.2.2.1]
  simp only [Option.some_bind]
  rw [debounced_idle PB6 _ _ q6 _ (noAdjustPressed_each q6 h6).2.2.2.2.2]

theorem ADJUST_TIME_transient_PB0 (st : State) (hp : paused st = true) (p0 p1 : Nat)
    (q1 q3 q4 q5 q6 : Nat) (rest : List Nat)
    (hp0 : pressed PB0 p0 = true) (hp1 : pressed PB0 p1 = false)
    (h1 : noAdjustPressed q1 = true) (h3 : noAdjustPressed q3 = true)
    (h4 : noAdjustPressed q4 = true) (h5 : noAdjustPressed q5 = true)
    (h6 : noAdjustPressed q6 = true) :
    ADJUST_TIME st (p0 :: p1 :: q1 :: q3 :: q4 :: q5 :: q6 :: rest) = some (st, rest) := by
  rw [ADJUST_TIME_of_paused st _ hp]
  rw [debounced_transient PB0 _ _ p0 p1 _ hp0 hp1]
  simp only [Option.some_bind]
  rw [debounced_idle PB1 _ _ q1 _ (noAdjustPressed_each q1 h1).2.1]
  simp only [Option.some_bind]
  rw [debounced_idle PB3 _ _ q3 _ (noAdjustPressed_each q3 h3).2.2.1]
  simp only [Option.some_bind]
  rw [debounced_idle PB4 _ _ q4 _ (noAdjustPressed_each q4 h4).2.2.2.1]
  simp only [Option.some_bind]
  rw [debounced_idle PB5 _ _ q5 _ (noAdjustPressed_each q5 h5).2.2.2.2.1]
  simp only [Option.some_bind]
  rw [debounced_idle PB6 _ _ q6 _ (noAdjustPressed_each q6 h6).2.2.2.2.2]

theorem ADJUST_TIME_transient_PB1 (st : State) (hp : paused st = true) (p0 p1 : Nat)
    (q0 q3 q4 q5 q6 : Nat) (rest : List Nat)
    (hp0 : pressed PB1 p0 = true) (hp1 : pressed PB1 p1 = false)
    (h0 : noAdjustPressed q0 = true) (h3 : noAdjustPressed q3 = true)
    (h4 : noAdjustPressed q4 = true) (h5 : noAdjustPressed q5 = true)
    (h6 : noAdjustPressed q6 = true) :
    ADJUST_TIME st (q0 :: p0 :: p1 :: q3 :: q4 :: q5 :: q6 :: rest) = some (st, rest) := by
  rw [ADJUST_TIME_of_paused st _ hp]
  rw [debounced_idle PB0 _ _ q0 _ (noAdjustPressed_each q0 h0).1]
  simp only [Option.some_bind]
  rw [debounced_transient PB1 _ _ p0 p1 _ hp0 hp1]
  simp only [Option.some_bind]
  rw [debounced_idle PB3 _ _ q3 _ (noAdjustPressed_each q3 h3).2.2.1]
  simp only [Option.some_bind]
  rw [debounced_idle PB4 _ _ q4 _ (noAdjustPressed_each q4 h4).2.2.2.1]
  simp only [Option.some_bind]
  rw [debounced_idle PB5 _ _ q5 _ (noAdjustPressed_each q5 h5).2.2.2.2.1]
  simp only [Option.some_bind]
  rw [debounced_idle PB6 _ _ q6 _ (noAdjustPressed_each q6 h6).2.2.2.2.2]

theorem ADJUST_TIME_transient_PB3 (st : State) (hp : paused st = true) (p0 p1 : Nat)
    (q0 q1 q4 q5 q6 : Nat) (rest : List Nat)
    (hp0 : pressed PB3 p0 = true) (hp1 : pressed PB3 p1 = false)
    (h0 : noAdjustPressed q0 = true) (h1 : noAdjustPressed q1 = true)
    (h4 : noAdjustPressed q4 = true) (h5 : noAdjustPressed q5 = true)
    (h6 : noAdjustPressed q6 = true) :
    ADJUST_TIME st (q0 :: q1 :: p0 :: p1 :: q4 :: q5 :: q6 :: rest) = some (st, rest) := by
  rw [ADJUST_TIME_of_paused st _ hp]
  rw [debounced_idle PB0 _ _ q0 _ (noAdjustPressed_each q0 h0).1]
  simp only [Option.some_bind]
  rw [debounced_idle PB1 _ _ q1 _ (noAdjustPressed_each q1 h1).2.1]
  simp only [Option.some_bind]
  rw [debounced_transient PB3 _ _ p0 p1 _ hp0 hp1]
  simp only [Option.some_bind]
  rw [debounced_idle PB4 _ _ q4 _ (noAdjustPressed_each q4 h4).2.2.2.1]
  simp only [Option.some_bind]
  rw [debounced_idle PB5 _ _ q5 _ (noAdjustPressed_each q5 h5).2.2.2.2.1]
  simp only [Option.some_bind]
  rw [debounced_idle PB6 _ _ q6 _ (noAdjustPressed_each q6 h6).2.2.2.2.2]

theorem ADJUST_TIME_transient_PB4 (st : State) (hp : paused st = true) (p0 p1 : Nat)
    (q0 q1 q3 q5 q6 : Nat) (rest : List Nat)
    (hp0 : pressed PB4 p0 = true) (hp1 : pressed PB4 p1 = false)
    (h0 : noAdjustPressed q0 = true) (h1 : noAdjustPressed q1 = true)
    (h3 : noAdjustPressed q3 = true) (h5 : noAdjustPressed q5 = true)
    (h6 : noAdjustPressed q6 = true) :
    ADJUST_TIME st (q0 :: q1 :: q3 :: p0 :: p1 :: q5 :: q6 :: rest) = some (st, rest) := by
  rw [ADJUST_TIME_of_paused st _ hp]
  rw [debounced_idle PB0 _ _ q0 _ (noAdjustPressed_each q0 h0).1]
  simp only [Option.some_bind]
  rw [debounced_idle PB1 _ _ q1 _ (noAdjustPressed_each q1 h1).2.1]
  simp only [Option.some_bind]
  rw [debounced_idle PB3 _ _ q3 _ (noAdjustPressed_each q3 h3).2.2.1]
  simp only [Option.some_bind]
  rw [debounced_transient PB4 _ _ p0 p1 _ hp0 hp1]
  simp only [Option.some_bind]
  rw [debounced_idle PB5 _ _ q5 _ (noAdjustPressed_each q5 h5).2.2.2.2.1]
  simp only [Option.some_bind]
  rw [debounced_idle PB6 _ _ q6 _ (noAdjustPressed_each q6 h6).2.2.2.2.2]

theorem ADJUST_TIME_transient_PB5 (st : State) (hp : paused st = true) (p0 p1 : Nat)
    (q0 q1 q3 q4 q6 : Nat) (rest : List Nat)
    (hp0 : pressed PB5 p0 = true) (hp1 : pressed PB5 p1 = false)
    (h0 : noAdjustPressed q0 = true) (h1 : noAdjustPressed q1 = true)
    (h3 : noAdjustPressed q3 = true) (h4 : noAdjustPressed q4 = true)
    (h6 : noAdjustPressed q6 = true) :
    ADJUST_TIME st (q0 :: q1 :: q3 :: q4 :: p0 :: p1 :: q6 :: rest) = some (st, rest) := by
  rw [ADJUST_TIME_of_paused st _ hp]
  rw [debounced_idle PB0 _ _ q0 _ (noAdjustPressed_each q0 h0).1]
  simp only [Option.some_bind]
  rw [debounced_idle PB1 _ _ q1 _ (noAdjustPressed_each q1 h1).2.1]
  simp only [Option.some_bind]
  rw [debounced_idle PB3 _ _ q3 _ (noAdjustPressed_each q3 h3).2.2.1]
  simp only [Option.some_bind]
  rw [debounced_idle PB4 _ _ q4 _ (noAdjustPressed_each q4 h4).2.2.2.1]
  simp only [Option.some_bind]
  rw [debounced_transient PB5 _ _ p0 p1 _ hp0 hp1]
  simp only [Option.some_bind]
  rw [debounced_idle PB6 _ _ q6 _ (noAdjustPressed_each q6 h6).2.2.2.2.2]

theorem ADJUST_TIME_transient_PB6 (st : State) (hp : paused st = true) (p0 p1 : Nat)
    (q0 q1 q3 q4 q5 : Nat) (rest : List Nat)
    (hp0 : pressed PB6 p0 = true) (hp1 : pressed PB6 p1 = false)
    (h0 : noAdjustPressed q0 = true) (h1 : noAdjustPressed q1 = true)
    (h3 : noAdjustPressed q3 = true) (h4 : noAdjustPressed q4 = true)
    (h5 : noAdjustPressed q5 = true) :
    ADJUST_TIME st (q0 :: q1 :: q3 :: q4 :: q5 :: p0 :: p1 :: rest) = some (st, rest) := by
  rw [ADJUST_TIME_of_paused st _ hp]
  rw [debounced_idle PB0 _ _ q0 _ (noAdjustPressed_each q0 h0).1]
  simp only [Option.some_bind]
  rw [debounced_idle PB1 _ _ q1 _ (noAdjustPressed_each q1 h1).2.1]
  simp only [Option.some_bind]
  rw [debounced_idle PB3 _ _ q3 _ (noAdjustPressed_each q3 h3).2.2.1]
  simp only [Option.some_bind]
  rw [debounced_idle PB4 _ _ q4 _ (noAdjustPressed_each q4 h4).2.2.2.1]
  simp only [Option.some_bind]
  rw [debounced_idle PB5 _ _ q5 _ (noAdjustPressed_each q5 h5).2.2.2.2.1]
  simp only [Option.some_bind]
  rw [debounced_transient PB6 _ _ p0 p1 _ hp0 hp1]

/-! ## Debouncing of the mode button -/

theorem xor_one_ne (x : Nat) : x ^^^ 1 ≠ x := by
  intro h
  have hb := congrArg (fun y => y.testBit 0) h
  simp only [Nat.testBit_xor] at hb
  have h1 : Nat.testBit 1 0 = true := by decide
  rw [h1] at hb
  cases hx : x.testBit 0 <;> rw [hx] at hb <;> exact absurd hb (by decide)

/-- C14: when the first two samples of the mode input are asserted, any number
of further samples are asserted and then one is de-asserted, one call of `MODE`
returns right after the de-asserted sample with `mode` and the indicator lines
`PD4`, `PD5` toggled once, whatever the number of asserted samples; as long as
no de-asserted sample has been read, `MODE` does not return. -/
theorem MODE_one_toggle_per_press (st : State) (p0 p1 : Nat) (held : List Nat) (pr : Nat)
    (rest : List Nat)
    (h0 : pressed PB7 p0 = true) (h1 : pressed PB7 p1 = true)
    (hheld : ∀ p ∈ held, pressed PB7 p = true) (hrel : pressed PB7 pr = false) :
    MODE st (p0 :: p1 :: (held ++ pr :: rest)) = some (toggleMode st, rest) ∧
    MODE st (p0 :: p1 :: held) = none ∧
    (toggleMode st).mode = st.mode ^^^ 1 ∧
    (toggleMode st).mode ≠ st.mode ∧
    (st.mode = 1 → (toggleMode st).mode = 0) ∧
    (st.mode = 0 → (toggleMode st).mode = 1) ∧
    bitIsSet (toggleMode st).PORTD PD4 = (!bitIsSet st.PORTD PD4) ∧
    bitIsSet (toggleMode st).PORTD PD5 = (!bitIsSet st.PORTD PD5) ∧
    (toggleMode st).s = st.s ∧ (toggleMode st).m = st.m ∧ (toggleMode st).h = st.h := by
  refine ⟨debounced_confirmed PB7 toggleMode st p0 p1 held pr rest h0 h1 hheld hrel,
    debounced_still_held PB7 toggleMode st p0 p1 held h0 h1 hheld, rfl, xor_one_ne st.mode,
    ?_, ?_, bitIsSet_xor_of_mask_set st.PORTD _ PD4 (by decide),
    bitIsSet_xor_of_mask_set st.PORTD _ PD5 (by decide), rfl, rfl, rfl⟩
  · intro hm
    show st.mode ^^^ 1 = 0
    rw [hm]; rfl
  · intro hm
    show st.mode ^^^ 1 = 1
    rw [hm]; rfl

/-- Witness for C14: from the start of the main loop (count-up), a press held
for three further samples switches to count-down once, and `MODE` has not
returned while only asserted samples have been read. -/
theorem MODE_one_toggle_per_press_witness :
    MODE initState (0x7F :: 0x7F :: ([0x7F, 0x7F, 0x7F] ++ 0xFF :: [0xAA])) =
      some (toggleMode initState, [0xAA]) ∧
    MODE initState (0x7F :: 0x7F :: [0x7F, 0x7F, 0x7F]) = none ∧
    (toggleMode initState).mode = 0 :=
  have h := MODE_one_toggle_per_press initState 0x7F 0x7F [0x7F, 0x7F, 0x7F] 0xFF [0xAA]
    (by decide) (by decide) (by decide) (by decide)
  ⟨h.1, h.2.1, h.2.2.2.2.1 (by decide)⟩

/-- C15: a transient is discarded.  If the first sample of a button is asserted
and the sample after the debounce delay is de-asserted, or if the first sample
is already de-asserted, then `MODE` returns the state unchanged, every button
block returns the state unchanged, and, while paused with no other adjustment
button pressed, the whole of `ADJUST_TIME` returns the state unchanged, so s,
m and h are as before. -/
theorem transient_press_discarded (st : State) (p0 p1 : Nat) (rest : List Nat) :
    (pressed PB7 p0 = true → pressed PB7 p1 = false →
      MODE st (p0 :: p1 :: rest) = some (st, rest)) ∧
    (pressed PB7 p0 = false → MODE st (p0 :: rest) = some (st, rest)) ∧
    (∀ (bit : Nat) (act : State → State),
      (pressed bit p0 = true → pressed bit p1 = false →
        debounced bit act st (p0 :: p1 :: rest) = some (st, rest)) ∧
      (pressed bit p0 = false → debounced bit act st (p0 :: rest) = some (st, rest))) ∧
    (paused st = true →
      ∀ q0 q1 q3 q4 q5 q6 : Nat,
        noAdjustPressed q0 = true → noAdjustPressed q1 = true → noAdjustPressed q3 = true →
        noAdjustPressed q4 = true → noAdjustPressed q5 = true → noAdjustPressed q6 = true →
        ADJUST_TIME st (q0 :: q1 :: q3 :: q4 :: q5 :: q6 :: rest) = some (st, rest) ∧
        (pressed PB0 p0 = true → pressed PB0 p1 = false →
          ADJUST_TIME st (p0 :: p1 :: q1 :: q3 :: q4 :: q5 :: q6 :: rest) = some (st, rest)) ∧
        (pressed PB1 p0 = true → pressed PB1 p1 = false →
          ADJUST_TIME st (q0 :: p0 :: p1 :: q3 :: q4 :: q5 :: q6 :: rest) = some (st, rest)) ∧
        (pressed PB3 p0 = true → pressed PB3 p1 = false →
          ADJUST_TIME st (q0 :: q1 :: p0 :: p1 :: q4 :: q5 :: q6 :: rest) = some (st, rest)) ∧
        (pressed PB4 p0 = true → pressed PB4 p1 = false →
          ADJUST_TIME st (q0 :: q1 :: q3 :: p0 :: p1 :: q5 :: q6 :: rest) = some (st, rest)) ∧
        (pressed PB5 p0 = true → pressed PB5 p1 = false →
          ADJUST_TIME st (q0 :: q1 :: q3 :: q4 :: p0 :: p1 :: q6 :: rest) = some (st, rest)) ∧
        (pressed PB6 p0 = true → pressed PB6 p1 = false →
          ADJUST_TIME st (q0 :: q1 :: q3 :: q4 :: q5 :: p0 :: p1 :: rest) = some (st, rest))) := by
  refine ⟨debounced_transient PB7 toggleMode st p0 p1 rest,
    debounced_idle PB7 toggleMode st p0 rest,
    fun bit act => ⟨debounced_transient bit act st p0 p1 rest, debounced_idle bit act st p0 rest⟩,
    ?_⟩
  intro hp q0 q1 q3 q4 q5 q6 h0 h1 h3 h4 h5 h6
  exact ⟨ADJUST_TIME_idle st hp q0 q1 q3 q4 q5 q6 rest h0 h1 h3 h4 h5 h6,
    fun a b => ADJUST_TIME_transient_PB0 st hp p0 p1 q1 q3 q4 q5 q6 rest a b h1 h3 h4 h5 h6,
    fun a b => ADJUST_TIME_transient_PB1 st hp p0 p1 q0 q3 q4 q5 q6 rest a b h0 h3 h4 h5 h6,
    fun a b => ADJUST_TIME_transient_PB3 st hp p0 p1 q0 q1 q4 q5 q6 rest a b h0 h1 h4 h5 h6,
    fun a b => ADJUST_TIME_transient_PB4 st hp p0 p1 q0 q1 q3 q5 q6 rest a b h0 h1 h3 h5 h6,
    fun a b => ADJUST_TIME_transient_PB5 st hp p0 p1 q0 q1 q3 q4 q6 rest a b h0 h1 h3 h4 h6,
    fun a b => ADJUST_TIME_transient_PB6 st hp p0 p1 q0 q1 q3 q4 q5 rest a b h0 h1 h3 h4 h5⟩

/-- Witness for C15: a glitch on the mode line leaves the state at the start
of the main loop unchanged, and a glitch on the hours-up line leaves the paused
12:34:56 unchanged. -/
theorem transient_press_discarded_witness :
    MODE initState (0x00 :: 0xFF :: []) = some (initState, []) ∧
    MODE initState (0xFF :: [0xFF]) = some (initState, [0xFF]) ∧
    ADJUST_TIME (pausedAt 12 34 56) (0xFF :: 0x00 :: 0xFF :: 0xFF :: 0xFF :: 0xFF :: 0xFF :: []) =
      some (pausedAt 12 34 56, []) :=
  ⟨(transient_press_discarded initState 0x00 0xFF []).1 (by decide) (by decide),
   (transient_press_discarded initState 0xFF 0xFF [0xFF]).2.1 (by decide),
   ((transient_press_discarded (pausedAt 12 34 56) 0x00 0xFF []).2.2.2 (by decide)
      0xFF 0xFF 0xFF 0xFF 0xFF 0xFF (by decide) (by decide) (by decide) (by decide)
      (by decide) (by decide)).2.2.1 (by decide) (by decide)⟩

/-! ## The mode indicator lines along runs -/

theorem ModeShown_of_PORTD_and (st st' : State) (mask : Nat) (hmode : st'.mode = st.mode)
    (hport : st'.PORTD = st.PORTD &&& mask) (h4 : mask.testBit PD4 = true)
    (h5 : mask.testBit PD5 = true) (hm : ModeShown st) : ModeShown st' := by
  unfold ModeShown at hm ⊢
  rw [hmode, hport, bitIsSet_and_of_mask _ _ _ h4, bitIsSet_and_of_mask _ _ _ h5]
  exact hm

theorem ModeShown_of_PORTD_or (st st' : State) (mask : Nat) (hmode : st'.mode = st.mode)
    (hport : st'.PORTD = st.PORTD ||| mask) (h4 : mask.testBit PD4 = false)
    (h5 : mask.testBit PD5 = false) (hm : ModeShown st) : ModeShown st' := by
  unfold ModeShown at hm ⊢
  rw [hmode, hport, bitIsSet_or_of_mask _ _ _ h4, bitIsSet_or_of_mask _ _ _ h5]
  exact hm

theorem count_down_PORTD (st : State) :
    (count_down st).PORTD = st.PORTD ||| (1 <<< PD0) ∨
    (count_down st).PORTD = st.PORTD &&& not8 (1 <<< PD0) := by
  unfold count_down
  dsimp only
  split_ifs
  · left; rfl
  all_goals right; rfl

theorem ModeShown_count_up (st : State) (hm : ModeShown st) : ModeShown (count_up st) :=
  ModeShown_of_PORTD_and st _ _ (count_up_mode st) (count_up_PORTD st) (by decide) (by decide) hm

theorem ModeShown_count_down (st : State) (hm : ModeShown st) : ModeShown (count_down st) := by
  rcases count_down_PORTD st with h | h
  · exact ModeShown_of_PORTD_or st _ _ (count_down_mode st) h (by decide) (by decide) hm
  · exact ModeShown_of_PORTD_and st _ _ (count_down_mode st) h (by decide) (by decide) hm

theorem ModeShown_toggleMode (st : State) (hm : ModeShown st) : ModeShown (toggleMode st) := by
  have e4 : bitIsSet (toggleMode st).PORTD PD4 = !bitIsSet st.PORTD PD4 :=
    bitIsSet_xor_of_mask_set st.PORTD _ PD4 (by decide)
  have e5 : bitIsSet (toggleMode st).PORTD PD5 = !bitIsSet st.PORTD PD5 :=
    bitIsSet_xor_of_mask_set st.PORTD _ PD5 (by decide)
  have em : (toggleMode st).mode = st.mode ^^^ 1 := rfl
  unfold ModeShown at hm ⊢
  rw [e4, e5, em]
  rcases hm with ⟨h1, h2, h3⟩ | ⟨h1, h2, h3⟩
  · right
    rw [h1, h2, h3]
    exact ⟨rfl, rfl, rfl⟩
  · left
    rw [h1, h2, h3]
    exact ⟨rfl, rfl, rfl⟩

theorem step_ModeShown (st : State) (e : Event) (st' : State) (hm : ModeShown st)
    (hs : step st e = some st') : ModeShown st' := by
  cases e with
  | tick =>
    simp only [step, Option.some.injEq] at hs
    rw [← hs]
    unfold ISR_TIMER1_COMPA
    split_ifs
    · exact ModeShown_count_up st hm
    · exact ModeShown_count_down st hm
  | reset =>
    simp only [step, Option.some.injEq] at hs
    rw [← hs]; exact hm
  | pause =>
    simp only [step, Option.some.injEq] at hs
    rw [← hs]
    exact ModeShown_of_PORTD_and st _ _ rfl rfl (by decide) (by decide) hm
  | resume =>
    simp only [step, Option.some.injEq] at hs
    rw [← hs]; exact hm
  | modePoll pins =>
    simp only [step, Option.map_eq_some'] at hs
    obtain ⟨r, hr, hfst⟩ := hs
    rw [← hfst]
    exact MODE_preserves ModeShown ModeShown_toggleMode st pins r hm hr
  | adjustPoll pins =>
    simp only [step, Option.map_eq_some'] at hs
    obtain ⟨r, hr, hfst⟩ := hs
    rw [← hfst]
    exact ADJUST_TIME_preserves ModeShown (fun _ h => h) (fun _ h => h) (fun _ h => h)
      (fun _ h => h) (fun _ h => h) (fun _ h => h) st pins r hm hr

theorem ModeShown_PIN_DIRECTIONS (st : State) (hmode : st.mode = 1) :
    ModeShown (PIN_DIRECTIONS st) := by
  left
  refine ⟨hmode, ?_, ?_⟩
  · show bitIsSet ((st.PORTD ||| ((1 <<< PD2) ||| (1 <<< PD4))) &&& not8 (1 <<< PD5)) PD4 = true
    rw [bitIsSet_and_of_mask _ _ _ (by decide)]
    exact bitIsSet_or_of_mask_set _ _ _ (by decide)
  · show bitIsSet ((st.PORTD ||| ((1 <<< PD2) ||| (1 <<< PD4))) &&& not8 (1 <<< PD5)) PD5 = false
    have hmask : (not8 (1 <<< PD5)).testBit PD5 = false := by decide
    rw [bitIsSet_eq_testBit, Nat.testBit_and, hmask, Bool.and_false]

theorem ModeShown_unfold (st : State) (hm : ModeShown st) :
    (st.mode = 0 ∨ st.mode = 1) ∧
    (bitIsSet st.PORTD PD4 ≠ bitIsSet st.PORTD PD5) ∧
    (bitIsSet st.PORTD PD4 = true ↔ st.mode = 1) := by
  unfold ModeShown at hm
  rcases hm with ⟨h1, h2, h3⟩ | ⟨h1, h2, h3⟩
  · rw [h1, h2, h3]
    exact ⟨Or.inr rfl, by decide, by decide⟩
  · rw [h1, h2, h3]
    exact ⟨Or.inl rfl, by decide, by decide⟩

/-- C19: after `PIN_DIRECTIONS` on a state with `mode` = 1 the indicator lines
show count-up (`PD4` high, `PD5` low); from there, and so from the start of the
main loop, every state reached by any sequence of ticks, resets, pauses,
resumes and passes of `MODE` and `ADJUST_TIME` has `mode` 0 or 1, exactly one
of `PD4` and `PD5` high, and `PD4` high if and only if `mode` = 1. -/
theorem mode_indicator_invariant :
    (∀ st0 : State, st0.mode = 1 →
      (PIN_DIRECTIONS st0).mode = 1 ∧ bitIsSet (PIN_DIRECTIONS st0).PORTD PD4 = true ∧
      bitIsSet (PIN_DIRECTIONS st0).PORTD PD5 = false ∧
      ∀ (es : List Event) (st : State), run (PIN_DIRECTIONS st0) es = some st →
        (st.mode = 0 ∨ st.mode = 1) ∧
        (bitIsSet st.PORTD PD4 ≠ bitIsSet st.PORTD PD5) ∧
        (bitIsSet st.PORTD PD4 = true ↔ st.mode = 1)) ∧
    (∀ st : State, Reachable st →
      (st.mode = 0 ∨ st.mode = 1) ∧
      (bitIsSet st.PORTD PD4 ≠ bitIsSet st.PORTD PD5) ∧
      (bitIsSet st.PORTD PD4 = true ↔ st.mode = 1)) := by
  constructor
  · intro st0 hmode
    have h := ModeShown_PIN_DIRECTIONS st0 hmode
    have h' := ModeShown_unfold _ h
    have h4 : bitIsSet (PIN_DIRECTIONS st0).PORTD PD4 = true := h'.2.2.2 hmode
    refine ⟨hmode, h4, ?_, fun es st hr =>
      ModeShown_unfold st (run_preserves ModeShown step_ModeShown es _ st h hr)⟩
    cases h5 : bitIsSet (PIN_DIRECTIONS st0).PORTD PD5
    · rfl
    · exact absurd (h4.trans h5.symm) h'.2.1
  · rintro st ⟨es, hes⟩
    exact ModeShown_unfold st
      (run_preserves ModeShown step_ModeShown es initState st (by decide) hes)

/-- Witness for C19: the state after a mode toggle, a tick and a second mode
toggle is reachable and in count-up mode with `PD4` high and `PD5` low. -/
theorem mode_indicator_invariant_witness :
    Reachable toggledAfterAlarm ∧
    ((toggledAfterAlarm.mode = 0 ∨ toggledAfterAlarm.mode = 1) ∧
      (bitIsSet toggledAfterAlarm.PORTD PD4 ≠ bitIsSet toggledAfterAlarm.PORTD PD5) ∧
      (bitIsSet toggledAfterAlarm.PORTD PD4 = true ↔ toggledAfterAlarm.mode = 1)) ∧
    toggledAfterAlarm.mode = 1 :=
  have hr : Reachable toggledAfterAlarm := ⟨alarmThenToggle, by decide⟩
  ⟨hr, mode_indicator_invariant.2 toggledAfterAlarm hr, by decide⟩

/-! ## Up and down adjustments undo each other -/

theorem hoursDown_hoursUp (st : State) (hb : InBounds st) : hoursDown (hoursUp st) = st := by
  obtain ⟨hs, hm, hh⟩ := hb
  cases st
  simp only [hoursDown, hoursUp, State.mk.injEq, and_true, true_and] at *
  split_ifs <;> omega

theorem hoursUp_hoursDown (st : State) (hb : InBounds st) : hoursUp (hoursDown st) = st := by
  obtain ⟨hs, hm, hh⟩ := hb
  cases st
  simp only [hoursDown, hoursUp, State.mk.injEq, and_true, true_and] at *
  split_ifs <;> omega

theorem minutesDown_minutesUp (st : State) (hb : InBounds st) :
    minutesDown (minutesUp st) = st := by
  obtain ⟨hs, hm, hh⟩ := hb
  cases st
  simp only [minutesDown, minutesUp, State.mk.injEq, and_true, true_and] at *
  split_ifs <;> omega

theorem minutesUp_minutesDown (st : State) (hb : InBounds st) :
    minutesUp (minutesDown st) = st := by
  obtain ⟨hs, hm, hh⟩ := hb
  cases st
  simp only [minutesDown, minutesUp, State.mk.injEq, and_true, true_and] at *
  split_ifs <;> omega

theorem secondsDown_secondsUp (st : State) (hb : InBounds st) :
    secondsDown (secondsUp st) = st := by
  obtain ⟨hs, hm, hh⟩ := hb
  cases st
  simp only [secondsDown, secondsUp, State.mk.injEq, and_true, true_and] at *
  split_ifs <;> omega

theorem secondsUp_secondsDown (st : State) (hb : InBounds st) :
    secondsUp (secondsDown st) = st := by
  obtain ⟨hs, hm, hh⟩ := hb
  cases st
  simp only [secondsDown, secondsUp, State.mk.injEq, and_true, true_and] at *
  split_ifs <;> omega

/-- C20: in a paused state with in-bounds s, m, h, a confirmed press of a
field's increment button in one pass of `ADJUST_TIME`, followed by a confirmed
press of the same field's decrement button in a second pass, or the two in the
reverse order, gives back the original state, and so the original (s, m, h);
this for hours (`PB1`, `PB0`), minutes (`PB4`, `PB3`) and seconds (`PB6`,
`PB5`), no other adjustment button being pressed in either pass. -/
theorem adjust_up_down_inverse (st : State) (hp : paused st = true) (hb : InBounds st)
    (x y : Press) (q0 q1 q3 q4 q5 q6 r0 r1 r3 r4 r5 r6 : Nat) (rest1 rest2 : List Nat)
    (hq0 : noAdjustPressed q0 = true) (hq1 : noAdjustPressed q1 = true)
    (hq3 : noAdjustPressed q3 = true)
    (hq4 : noAdjustPressed q4 = true) (hq5 : noAdjustPressed q5 = true)
    (hq6 : noAdjustPressed q6 = true)
    (hr0 : noAdjustPressed r0 = true) (hr1 : noAdjustPressed r1 = true)
    (hr3 : noAdjustPressed r3 = true)
    (hr4 : noAdjustPressed r4 = true) (hr5 : noAdjustPressed r5 = true)
    (hr6 : noAdjustPressed r6 = true) :
    (x.confirmed PB1 → y.confirmed PB0 →
      ∃ st1, ADJUST_TIME st (q0 :: x.samples (q3 :: q4 :: q5 :: q6 :: rest1))
          = some (st1, rest1) ∧
        ADJUST_TIME st1 (y.samples (r1 :: r3 :: r4 :: r5 :: r6 :: rest2)) = some (st, rest2)) ∧
    (x.confirmed PB0 → y.confirmed PB1 →
      ∃ st1, ADJUST_TIME st (x.samples (q1 :: q3 :: q4 :: q5 :: q6 :: rest1))
          = some (st1, rest1) ∧
        ADJUST_TIME st1 (r0 :: y.samples (r3 :: r4 :: r5 :: r6 :: rest2)) = some (st, rest2)) ∧
    (x.confirmed PB4 → y.confirmed PB3 →
      ∃ st1, ADJUST_TIME st (q0 :: q1 :: q3 :: x.samples (q5 :: q6 :: rest1))
          = some (st1, rest1) ∧
        ADJUST_TIME st1 (r0 :: r1 :: y.samples (r4 :: r5 :: r6 :: rest2)) = some (st, rest2)) ∧
    (x.confirmed PB3 → y.confirmed PB4 →
      ∃ st1, ADJUST_TIME st (q0 :: q1 :: x.samples (q4 :: q5 :: q6 :: rest1))
          = some (st1, rest1) ∧
        ADJUST_TIME st1 (r0 :: r1 :: r3 :: y.samples (r5 :: r6 :: rest2)) = some (st, rest2)) ∧
    (x.confirmed PB6 → y.confirmed PB5 →
      ∃ st1, ADJUST_TIME st (q0 :: q1 :: q3 :: q4 :: q5 :: x.samples rest1)
          = some (st1, rest1) ∧
        ADJUST_TIME st1 (r0 :: r1 :: r3 :: r4 :: y.samples (r6 :: rest2)) = some (st, rest2)) ∧
    (x.confirmed PB5 → y.confirmed PB6 →
      ∃ st1, ADJUST_TIME st (q0 :: q1 :: q3 :: q4 :: x.samples (q6 :: rest1))
          = some (st1, rest1) ∧
        ADJUST_TIME st1 (r0 :: r1 :: r3 :: r4 :: r5 :: y.samples rest2) = some (st, rest2)) := by
  refine ⟨?_, ?_, ?_, ?_, ?_, ?_⟩
  · intro hx hy
    refine ⟨hoursUp st,
      ADJUST_TIME_press_PB1 st hp x q0 q3 q4 q5 q6 rest1
        hx hq0 hq3 hq4 hq5 hq6, ?_⟩
    have hp' : paused (hoursUp st) = true := hp
    rw [ADJUST_TIME_press_PB0 (hoursUp st) hp' y r1 r3 r4 r5 r6 rest2
      hy hr1 hr3 hr4 hr5 hr6,
      hoursDown_hoursUp st hb]
  · intro hx hy
    refine ⟨hoursDown st,
      ADJUST_TIME_press_PB0 st hp x q1 q3 q4 q5 q6 rest1
        hx hq1 hq3 hq4 hq5 hq6, ?_⟩
    have hp' : paused (hoursDown st) = true := hp
    rw [ADJUST_TIME_press_PB1 (hoursDown st) hp' y r0 r3 r4 r5 r6 rest2
      hy hr0 hr3 hr4 hr5 hr6,
      hoursUp_hoursDown st hb]
  · intro hx hy
    refine ⟨minutesUp st,
      ADJUST_TIME_press_PB4 st hp x q0 q1 q3 q5 q6 rest1
        hx hq0 hq1 hq3 hq5 hq6, ?_⟩
    have hp' : paused (minutesUp st) = true := hp
    rw [ADJUST_TIME_press_PB3 (minutesUp st) hp' y r0 r1 r4 r5 r6 rest2
      hy hr0 hr1 hr4 hr5 hr6,
      minutesDown_minutesUp st hb]
  · intro hx hy
    refine ⟨minutesDown st,
      ADJUST_TIME_press_PB3 st hp x q0 q1 q4 q5 q6 rest1
        hx hq0 hq1 hq4 hq5 hq6, ?_⟩
    have hp' : paused (minutesDown st) = true := hp
    rw [ADJUST_TIME_press_PB4 (minutesDown st) hp' y r0 r1 r3 r5 r6 rest2
      hy hr0 hr1 hr3 hr5 hr6,
      minutesUp_minutesDown st hb]
  · intro hx hy
    refine ⟨secondsUp st,
      ADJUST_TIME_press_PB6 st hp x q0 q1 q3 q4 q5 rest1
        hx hq0 hq1 hq3 hq4 hq5, ?_⟩
    have hp' : paused (secondsUp st) = true := hp
    rw [ADJUST_TIME_press_PB5 (secondsUp st) hp' y r0 r1 r3 r4 r6 rest2
      hy hr0 hr1 hr3 hr4 hr6,
      secondsDown_secondsUp st hb]
  · intro hx hy
    refine ⟨secondsDown st,
      ADJUST_TIME_press_PB5 st hp x q0 q1 q3 q4 q6 rest1
        hx hq0 hq1 hq3 hq4 hq6, ?_⟩
    have hp' : paused (secondsDown st) = true := hp
    rw [ADJUST_TIME_press_PB6 (secondsDown st) hp' y r0 r1 r3 r4 r5 rest2
      hy hr0 hr1 hr3 hr4 hr5,
      secondsUp_secondsDown st hb]

/-- Witness for C20, paused at 23:59:59: hours-up gives 00:59:59 and hours-down
then gives 23:59:59 back; seconds-down gives 23:59:58 and seconds-up then gives
23:59:59 back. -/
theorem adjust_up_down_inverse_witness :
    (∃ st1, ADJUST_TIME (pausedAt 23 59 59)
        (0xFF :: (pressAll 1).samples (0xFF :: 0xFF :: 0xFF :: 0xFF :: [])) = some (st1, []) ∧
      ADJUST_TIME st1 ((pressAll 1).samples (0xFF :: 0xFF :: 0xFF :: 0xFF :: 0xFF :: [])) =
        some (pausedAt 23 59 59, [])) ∧
    (∃ st1, ADJUST_TIME (pausedAt 23 59 59)
        (0xFF :: 0xFF :: 0xFF :: 0xFF :: (pressAll 1).samples (0xFF :: [])) = some (st1, []) ∧
      ADJUST_TIME st1 (0xFF :: 0xFF :: 0xFF :: 0xFF :: 0xFF :: (pressAll 1).samples []) =
        some (pausedAt 23 59 59, [])) ∧
    time (hoursUp (pausedAt 23 59 59)) = (0, 59, 59) ∧
    time (secondsDown (pausedAt 23 59 59)) = (23, 59, 58) :=
  have h := adjust_up_down_inverse (pausedAt 23 59 59) (by decide) (by decide)
    (pressAll 1) (pressAll 1) 0xFF 0xFF 0xFF 0xFF 0xFF 0xFF 0xFF 0xFF 0xFF 0xFF 0xFF 0xFF [] []
    (by decide) (by decide) (by decide) (by decide) (by decide) (by decide)
    (by decide) (by decide) (by decide) (by decide) (by decide) (by decide)
  ⟨h.1 (by decide) (by decide), h.2.2.2.2.2 (by decide) (by decide), by decide, by decide⟩

end Stopwatch
